import Mathlib

/-!
A shallow embedding of the `BambuLabPresence` class from `src/main.py`
(a bridge from Bambu Lab printer MQTT telemetry to a Discord rich-presence
display), together with theorems about its merge, status-resolution,
rendering, throttling and idle-message logic.

Modelling conventions:
* Python floats are embedded as rationals (`ℚ`); Python ints as `Int`.
* `time.time()` values are passed explicitly as a `now : ℚ` argument.
* A JSON scalar that may arrive with an arbitrary dynamic type is embedded
  as `JVal`.
* A payload entry for a numeric store field is embedded as `Field α`:
  `absent` models `'key' not in print_data`; `val a` models a present value
  whose `float()` / `int()` conversion succeeds and yields `a`; `malformed`
  models a present value whose conversion raises `ValueError`/`TypeError`.
* `handle_report_message` has no local exception handler in the source, so a
  conversion error raised mid-merge propagates to the `try`/`except` in
  `on_message`, which swallows it; the fields mutated before the raise keep
  their new values.  This is embedded with `Except PrinterState PrinterState`
  steps: `.error s` carries the partially-updated state at the raise point,
  and `settle` models the catch in `on_message`.
* `random.choice(self.idle_messages)` is embedded by passing the drawn index
  `draw : Fin 4` as an oracle argument; `random.choice` draws it uniformly.
* The fallible external call `self.RPC.update(...)` in `update_presence` is
  embedded by the Boolean argument `rpcOk`: `false` models the call raising,
  which the surrounding `try`/`except` swallows.
-/

namespace BambuRPC

/-- A JSON scalar value as delivered by `json.loads`, for payload entries the
source stores or compares without numeric conversion. -/
inductive JVal where
  | jnum (q : ℚ)
  | jstr (s : String)
  | jbool (b : Bool)
  | jnull
deriving DecidableEq, Repr

/-- Presence/conversion outcome of one numeric payload entry (see the file
header): `absent` = key missing, `val a` = converts to `a`, `malformed` =
present but `float()`/`int()` raises. -/
inductive Field (α : Type) where
  | absent
  | malformed
  | val (a : α)
deriving DecidableEq, Repr

/-- The `upload` sub-object of a `print` payload; `status` is
`upload_data.get('status')` (`none` when the key is missing). -/
structure UploadData where
  status : Option String
deriving DecidableEq, Repr

/-- The `online` sub-object of a `print` payload; `status` is the value of
`online_data.get('status', True)` when present (`none` when missing, in which
case the `True` default applies). -/
structure OnlineData where
  status : Option Bool
deriving DecidableEq, Repr

/-- The `print` sub-object of a report payload: every key the source reads,
with presence and conversion outcome made explicit. -/
structure PrintData where
  gcode_state : Option String
  bed_temper : Field ℚ
  bed_target_temper : Field ℚ
  nozzle_temper : Field ℚ
  nozzle_target_temper : Field ℚ
  mc_percent : Field ℚ
  mc_remaining_time : Field Int
  layer_num : Field Int
  total_layer_num : Field Int
  print_error : Field Int
  gcode_file : Option String
  mc_print_stage : Option JVal
  mc_print_sub_stage : Option JVal
  ams_status : Field Int
  upload : Option UploadData
  online : Option OnlineData
deriving DecidableEq, Repr

/-- A report payload; `printData` is `payload['print']` (`none` models
`'print' not in payload`). -/
structure Payload where
  printData : Option PrintData
deriving DecidableEq, Repr

/-- The mutable instance state of `BambuLabPresence` (the fields of
`__init__` that the telemetry / render paths read or write). -/
structure PrinterState where
  sequence_id : Int
  bed_temper : Option ℚ
  bed_target_temper : Option ℚ
  nozzle_temper : Option ℚ
  nozzle_target_temper : Option ℚ
  chamber_temper : Option ℚ
  current_status : String
  current_progress : ℚ
  last_known_file : Option String
  is_printing : Bool
  current_layer : Int
  total_layer_num : Int
  remaining_time : Int
  print_stage : JVal
  print_sub_stage : JVal
  print_error : Int
  last_temp_update : ℚ
  gcode_state : String
  selected_idle_message : Option String
  last_idle_message_time : ℚ
  last_update_time : ℚ
  start_time : Int
deriving DecidableEq, Repr

/-- `self.update_interval = 15` (seconds between presence renders). -/
def update_interval : ℚ := 15

/-- `self.temp_timeout = 5` (staleness threshold for temperatures). -/
def temp_timeout : ℚ := 5

/-- `self.idle_message_interval = 600` (seconds between idle re-rolls). -/
def idle_message_interval : ℚ := 600

/-- `self.idle_messages` from `__init__`. -/
def idle_messages : List String :=
  ["Printer Online - Ready to Print",
   "Waiting for Next Print Job",
   "Bambu Lab Printer Standing By",
   "System Ready"]

/-- `self.status_mapping` from `__init__`, as a partial lookup. -/
def status_mapping : String → Option String
  | "IDLE" => some "🟢 Ready"
  | "RUNNING" => some "🖨️ Printing"
  | "PAUSE" => some "⏸️ Paused"
  | "FINISH" => some "✅ Print Complete"
  | "PREPARE" => some "🔄 Preparing"
  | "HEAT" => some "♨️ Preheating"
  | "HOME" => some "🏠 Homing"
  | "CLEAN" => some "🧹 Auto-Cleaning"
  | "CALIBRATE" => some "📏 Auto-Leveling"
  | "FILAMENT" => some "🎯 Loading Filament"
  | "UNLOAD_FILAMENT" => some "⏏️ Unloading Filament"
  | "CHANGE_FILAMENT" => some "🔄 Changing Filament"
  | "MANUAL_LEVELING" => some "🔧 Manual Leveling"
  | "OFFLINE" => some "❌ Printer Offline"
  | "UNKNOWN" => some "⚪ Status Unknown"
  | "QUEUED" => some "📋 Job Queued"
  | "SLICING" => some "✂️ Preparing Print"
  | "UPLOADING" => some "⬆️ Uploading File"
  | "FAILED" => some "❌ Print Failed"
  | _ => none

/-- The initial state built by `__init__` (`t0` is the `time.time()` at
construction, stored truncated in `self.start_time`). -/
def init_state (t0 : Int) : PrinterState where
  sequence_id := 0
  bed_temper := none
  bed_target_temper := none
  nozzle_temper := none
  nozzle_target_temper := none
  chamber_temper := none
  current_status := "IDLE"
  current_progress := 0
  last_known_file := none
  is_printing := false
  current_layer := 0
  total_layer_num := 0
  remaining_time := 0
  print_stage := JVal.jnull
  print_sub_stage := JVal.jnull
  print_error := 0
  last_temp_update := 0
  gcode_state := "IDLE"
  selected_idle_message := none
  last_idle_message_time := 0
  last_update_time := 0
  start_time := t0

/-- `get_next_sequence_id`: returns `str(self.sequence_id)` and increments. -/
def get_next_sequence_id (s : PrinterState) : String × PrinterState :=
  (toString s.sequence_id, { s with sequence_id := s.sequence_id + 1 })

/-- `update_idle_message`: re-roll the idle phrase when 600 s have elapsed
since the last selection, or when none was ever selected; otherwise keep the
current phrase.  `draw` is the index drawn by `random.choice`. -/
def update_idle_message (s : PrinterState) (now : ℚ) (draw : Fin 4) :
    PrinterState :=
  if now - s.last_idle_message_time ≥ idle_message_interval ∨
      s.selected_idle_message = none then
    { s with
      selected_idle_message := some (idle_messages.get ⟨draw.val, draw.isLt⟩)
      last_idle_message_time := now }
  else s

/-- The `stage_mapping` dict inside `update_status`, looked up with Python
dict-key semantics on the raw `mc_print_sub_stage` value (numeric keys `1..5`;
a Python `bool` compares equal to `0`/`1`, so `True` matches the key `1`). -/
def stage_map : JVal → Option String
  | JVal.jnum q =>
      if q = 1 then some "HEAT"
      else if q = 2 then some "HOME"
      else if q = 3 then some "CLEAN"
      else if q = 4 then some "CALIBRATE"
      else if q = 5 then some "FILAMENT"
      else none
  | JVal.jbool b => if b then some "HEAT" else none
  | _ => none

/-- Tail of `update_status` after the upload/error/AMS checks: the
RUNNING/preparing-stage mapping, the `online` check, and the fallback to
`gcode_state`. -/
def resolve_rest (s : PrinterState) (pd : PrintData) : String :=
  if s.gcode_state = "RUNNING" ∧ s.print_stage = JVal.jstr "1" then
    (stage_map s.print_sub_stage).getD "PREPARE"
  else
    match pd.online with
    | some o => if o.status = some false then "OFFLINE" else s.gcode_state
    | none => s.gcode_state

/-- Middle of `update_status`: the AMS filament-change check.
`int(print_data.get('ams_status', 0))` raising is modelled by the
`malformed` branch, which leaves `current_status` unchanged (the exception
aborts `update_status` and is swallowed in `on_message`). -/
def resolve_ams (s : PrinterState) (pd : PrintData) : String :=
  match pd.ams_status with
  | Field.malformed => s.current_status
  | Field.val a =>
      if a = 1 ∨ a = 2 then "CHANGE_FILAMENT" else resolve_rest s pd
  | Field.absent => resolve_rest s pd

/-- `update_status` after the upload check: error code first, then AMS. -/
def resolve_after_upload (s : PrinterState) (pd : PrintData) : String :=
  if s.print_error ≠ 0 then "ERROR_" ++ toString s.print_error
  else resolve_ams s pd

/-- The status label computed by `update_status`, as a function of the stored
state and the triggering `print` payload (whose `upload`, `ams_status` and
`online` entries the source reads directly). -/
def resolve_status (s : PrinterState) (pd : PrintData) : String :=
  match pd.upload with
  | some u =>
      if u.status = some "idle" then resolve_after_upload s pd
      else "UPLOADING"
  | none => resolve_after_upload s pd

/-- `update_status`: every branch of the source assigns
`self.current_status` (or leaves it unchanged) and nothing else. -/
def update_status (s : PrinterState) (pd : PrintData) : PrinterState :=
  { s with current_status := resolve_status s pd }

/-- Truncation toward zero, as Python `int(...)` on a float. -/
def pyInt (q : ℚ) : Int :=
  if q < 0 then -⌊-q⌋ else ⌊q⌋

/-- Python 3 `round(...)` on a float with no digits argument: round half to
even. -/
def pyRound (q : ℚ) : Int :=
  let f := ⌊q⌋
  let frac := q - f
  if frac < 1/2 then f
  else if 1/2 < frac then f + 1
  else if f % 2 = 0 then f else f + 1

/-- A Python float as produced by a successful `float(...)` conversion:
finite values (embedded as rationals) or the non-finite values `inf`,
`-inf` and `nan`, which `float('inf')`, `float('nan')` — and the
`Infinity`/`-Infinity`/`NaN` tokens `json.loads` accepts by default —
produce. -/
inductive PyFloat where
  | finite (q : ℚ)
  | inf
  | ninf
  | nan
deriving DecidableEq, Repr

/-- `format_temperature`: `none` models Python `None`, `some (.error ())` a
value whose `float()` conversion raises, and `some (.ok v)` a value
converting to the float `v`.  On a finite value, `round` then `int` yield
the rounded integer string; on `nan`, `round` raises `ValueError`, which the
`except (ValueError, TypeError)` clause catches, giving the placeholder; on
`inf`/`-inf`, `round` raises `OverflowError`, which that clause does NOT
catch — the exception propagates out of the function, modelled by
`Except.error ()`. -/
def format_temperature (temp : Option (Except Unit PyFloat)) :
    Except Unit String :=
  match temp with
  | none => Except.ok "???"
  | some (Except.error _) => Except.ok "???"
  | some (Except.ok (PyFloat.finite q)) => Except.ok (toString (pyRound q))
  | some (Except.ok PyFloat.nan) => Except.ok "???"
  | some (Except.ok PyFloat.inf) => Except.error ()
  | some (Except.ok PyFloat.ninf) => Except.error ()

/-- The renderer's application of `format_temperature` to a stored actual
temperature: the embedded store holds `None` or a finite float
(`Option ℚ`), and on those inputs the source function always returns
(`format_stored_temp_ok` below proves the `Except.error` arm unreachable
here; it is written as the placeholder only to make the match total). -/
def format_stored_temp (t : Option ℚ) : String :=
  match format_temperature (t.map (fun q => Except.ok (PyFloat.finite q)))
    with
  | Except.ok str => str
  | Except.error _ => "???"

/-- On the finite stored values the renderer passes, `format_temperature`
never raises and `format_stored_temp` is exactly its returned string. -/
theorem format_stored_temp_ok (t : Option ℚ) :
    format_temperature (t.map (fun q => Except.ok (PyFloat.finite q))) =
      Except.ok (format_stored_temp t) := by
  cases t <;> rfl

/-- `create_progress_bar`: `filled = int(width * (progress / 100))` glyphs of
`█` followed by `width - filled` glyphs of `▒` (Python string repetition with
a non-positive count yields the empty string). -/
def create_progress_bar (progress : ℚ) (width : Int := 10) : String :=
  let filled := pyInt ((width : ℚ) * (progress / 100))
  let empty := width - filled
  String.mk (List.replicate filled.toNat '█') ++
    String.mk (List.replicate empty.toNat '▒')

/-- One mutation step of `handle_report_message`.  `.ok s` = the step
completed with state `s`; `.error s` = a conversion raised with the state
mutated so far being `s` (the exception is swallowed by `on_message`). -/
def MStep : Type := PrinterState → Except PrinterState PrinterState

/-- Run the steps in order, stopping at the first raise. -/
def runSteps (s : PrinterState) : List MStep → Except PrinterState PrinterState
  | [] => Except.ok s
  | st :: rest =>
      match st s with
      | Except.ok s' => runSteps s' rest
      | Except.error s' => Except.error s'

/-- The state after the `try`/`except` in `on_message`: the partial state is
kept whether or not a conversion raised. -/
def settle : Except PrinterState PrinterState → PrinterState
  | Except.ok s => s
  | Except.error s => s

/-- Apply one numeric payload entry: skip when absent, mutate on a converted
value, raise (state unchanged by this step) when conversion fails. -/
def stepField {α : Type} (f : Field α)
    (apply : PrinterState → α → PrinterState) : MStep := fun s =>
  match f with
  | Field.absent => Except.ok s
  | Field.malformed => Except.error s
  | Field.val a => Except.ok (apply s a)

/-- `if 'gcode_state' in print_data:` — sets both `gcode_state` and
`current_status` (lines 168-170). -/
def step_gcode_state (pd : PrintData) : MStep := fun s =>
  match pd.gcode_state with
  | some g => Except.ok { s with gcode_state := g, current_status := g }
  | none => Except.ok s

/-- `if 'bed_temper' in print_data:` (lines 173-175). -/
def step_bed_temper (now : ℚ) (pd : PrintData) : MStep :=
  stepField pd.bed_temper
    (fun s q => { s with bed_temper := some q, last_temp_update := now })

/-- `if 'bed_target_temper' in print_data:` (lines 176-177). -/
def step_bed_target_temper (pd : PrintData) : MStep :=
  stepField pd.bed_target_temper
    (fun s q => { s with bed_target_temper := some q })

/-- `if 'nozzle_temper' in print_data:` (lines 178-180). -/
def step_nozzle_temper (now : ℚ) (pd : PrintData) : MStep :=
  stepField pd.nozzle_temper
    (fun s q => { s with nozzle_temper := some q, last_temp_update := now })

/-- `if 'nozzle_target_temper' in print_data:` (lines 181-182). -/
def step_nozzle_target_temper (pd : PrintData) : MStep :=
  stepField pd.nozzle_target_temper
    (fun s q => { s with nozzle_target_temper := some q })

/-- `if 'mc_percent' in print_data:` (lines 185-186). -/
def step_mc_percent (pd : PrintData) : MStep :=
  stepField pd.mc_percent (fun s q => { s with current_progress := q })

/-- `if 'mc_remaining_time' in print_data:` (lines 187-188). -/
def step_mc_remaining_time (pd : PrintData) : MStep :=
  stepField pd.mc_remaining_time (fun s n => { s with remaining_time := n })

/-- `if 'layer_num' in print_data:` (lines 189-190). -/
def step_layer_num (pd : PrintData) : MStep :=
  stepField pd.layer_num (fun s n => { s with current_layer := n })

/-- `if 'total_layer_num' in print_data:` (lines 191-192). -/
def step_total_layer_num (pd : PrintData) : MStep :=
  stepField pd.total_layer_num (fun s n => { s with total_layer_num := n })

/-- `if 'print_error' in print_data:` (lines 195-196). -/
def step_print_error (pd : PrintData) : MStep :=
  stepField pd.print_error (fun s n => { s with print_error := n })

/-- `if 'gcode_file' in print_data:` — only a truthy (non-empty) filename
replaces the stored one (lines 199-202). -/
def step_gcode_file (pd : PrintData) : MStep := fun s =>
  Except.ok
    (match pd.gcode_file with
     | some f => if f = "" then s else { s with last_known_file := some f }
     | none => s)

/-- The `is_printing` derivation from `gcode_state` (lines 205-208). -/
def step_is_printing : MStep := fun s =>
  Except.ok
    (if s.gcode_state = "RUNNING" ∨ s.gcode_state = "PAUSE" ∨
        s.gcode_state = "PREPARE" then { s with is_printing := true }
     else if s.gcode_state = "IDLE" ∨ s.gcode_state = "FAILED" ∨
        s.gcode_state = "FINISH" then { s with is_printing := false }
     else s)

/-- `if 'mc_print_stage' in print_data:` — stores the raw value (211-212). -/
def step_print_stage (pd : PrintData) : MStep := fun s =>
  Except.ok
    (match pd.mc_print_stage with
     | some v => { s with print_stage := v }
     | none => s)

/-- `if 'mc_print_sub_stage' in print_data:` — raw value (lines 213-214). -/
def step_print_sub_stage (pd : PrintData) : MStep := fun s =>
  Except.ok
    (match pd.mc_print_sub_stage with
     | some v => { s with print_sub_stage := v }
     | none => s)

/-- `self.update_status(print_data)` (line 216). -/
def step_update_status (pd : PrintData) : MStep := fun s =>
  Except.ok (update_status s pd)

/-- The body of `handle_report_message`, in source order. -/
def mergeSteps (now : ℚ) (pd : PrintData) : List MStep :=
  [step_gcode_state pd,
   step_bed_temper now pd,
   step_bed_target_temper pd,
   step_nozzle_temper now pd,
   step_nozzle_target_temper pd,
   step_mc_percent pd,
   step_mc_remaining_time pd,
   step_layer_num pd,
   step_total_layer_num pd,
   step_print_error pd,
   step_gcode_file pd,
   step_is_printing,
   step_print_stage pd,
   step_print_sub_stage pd,
   step_update_status pd]

/-- `handle_report_message` as invoked through `on_message`: a payload with
no `print` object is a no-op; otherwise the merge steps run in order and a
mid-merge conversion error leaves the partially-updated state (the exception
is swallowed by `on_message`). -/
def handle_report_message (s : PrinterState) (now : ℚ) (payload : Payload) :
    PrinterState :=
  match payload.printData with
  | none => s
  | some pd => settle (runSteps s (mergeSteps now pd))

/-- `handle_report_message` on a payload that does contain `print` data. -/
def handleP (s : PrinterState) (now : ℚ) (pd : PrintData) : PrinterState :=
  handle_report_message s now ⟨some pd⟩

/-- All numeric entries of a payload that are present convert successfully
(no `float()`/`int()` call raises during the merge or the AMS check). -/
def wellFormed (pd : PrintData) : Prop :=
  pd.bed_temper ≠ Field.malformed ∧
  pd.bed_target_temper ≠ Field.malformed ∧
  pd.nozzle_temper ≠ Field.malformed ∧
  pd.nozzle_target_temper ≠ Field.malformed ∧
  pd.mc_percent ≠ Field.malformed ∧
  pd.mc_remaining_time ≠ Field.malformed ∧
  pd.layer_num ≠ Field.malformed ∧
  pd.total_layer_num ≠ Field.malformed ∧
  pd.print_error ≠ Field.malformed ∧
  pd.ams_status ≠ Field.malformed

instance (pd : PrintData) : Decidable (wellFormed pd) := by
  unfold wellFormed; infer_instance

/-- `filename.rsplit('.', 1)[0]`: drop everything from the last dot on. -/
def dropExt (f : String) : String :=
  let parts := f.splitOn "."
  if parts.length ≤ 1 then f else String.intercalate "." parts.dropLast

/-- `f"{x:.1f}"`: fixed one-decimal rendering (round half to even on the
tenths digit). -/
def formatFixed1 (q : ℚ) : String :=
  let n := pyRound (q * 10)
  let m := n.natAbs
  let base := toString (m / 10) ++ "." ++ toString (m % 10)
  if n < 0 then "-" ++ base else base

/-- The structured update handed to `self.RPC.update(...)`. -/
structure DisplayPayload where
  details : String
  state : String
  large_image : String
  large_text : String
  start : Int
deriving DecidableEq, Repr

/-- `update_presence`: returns the state after the tick and the payload
emitted to the display client, if any.  `draw` is the `random.choice` oracle
for a possible idle re-roll; `rpcOk = false` models `self.RPC.update`
raising (swallowed by the `except` block, which in particular leaves
`last_update_time` unchanged). -/
def update_presence (s : PrinterState) (now : ℚ) (draw : Fin 4)
    (rpcOk : Bool) : PrinterState × Option DisplayPayload :=
  if now - s.last_update_time < update_interval then (s, none)
  else
    let status := (status_mapping s.current_status.toUpper).getD
      "Status Unknown"
    let s2 :=
      if s.is_printing then s else update_idle_message s now draw
    let details :=
      if s.is_printing then
        match s.last_known_file with
        | some f =>
            let bar := create_progress_bar s.current_progress
            let pct := formatFixed1 s.current_progress
            s!"{dropExt f} [{bar}] {pct}%"
        | none => "Print in Progress"
      else
        if s2.print_error ≠ 0 then s!"Error: {s2.print_error}"
        else
          match s2.selected_idle_message with
          | some m => if m = "" then "Printer Ready" else m
          | none => "Printer Ready"
    let temps_stale := temp_timeout < now - s2.last_temp_update
    let bed_temp :=
      if temps_stale then "???"
      else
        let b := format_stored_temp s2.bed_temper
        match s2.bed_target_temper with
        | some t => if 0 < t then b ++ "/" ++ toString (pyInt t) else b
        | none => b
    let nozzle_temp :=
      if temps_stale then "???"
      else
        let n := format_stored_temp s2.nozzle_temper
        match s2.nozzle_target_temper with
        | some t => if 0 < t then n ++ "/" ++ toString (pyInt t) else n
        | none => n
    let stateLine := s!"🔧 {bed_temp}°C 🔥 {nozzle_temp}°C"
    let stateLine :=
      if s2.is_printing ∧ 0 < s2.remaining_time then
        stateLine ++ s!" ⏱️ {s2.remaining_time}min"
      else stateLine
    if rpcOk then
      ({ s2 with last_update_time := now },
       some ⟨details, stateLine, "bambulab_logo", status, s2.start_time⟩)
    else (s2, none)

/-! ### Generic lemmas about the merge step machinery -/

/-- A step neither changes projection `π` on completion nor on a raise. -/
def Preserves {α : Type} (π : PrinterState → α) (st : MStep) : Prop :=
  ∀ s, π (settle (st s)) = π s

theorem settle_ok (s : PrinterState) : settle (Except.ok s) = s := rfl

theorem settle_error (s : PrinterState) : settle (Except.error s) = s := rfl

theorem preserve_runSteps {α : Type} (π : PrinterState → α) :
    ∀ (L : List MStep), (∀ st ∈ L, Preserves π st) →
      ∀ s, π (settle (runSteps s L)) = π s := by
  intro L
  induction L with
  | nil => intro _ s; rfl
  | cons st rest ih =>
      intro h s
      have hst : π (settle (st s)) = π s := h st (List.mem_cons_self st rest) s
      have hrest := fun st' h' => h st' (List.mem_cons_of_mem st h')
      cases hc : st s with
      | ok s' =>
          rw [hc, settle_ok] at hst
          simp only [runSteps, hc, ih hrest, hst]
      | error s' =>
          rw [hc, settle_error] at hst
          simp only [runSteps, hc, settle_error, hst]

theorem runSteps_ok_of (L : List MStep)
    (h : ∀ st ∈ L, ∀ s, ∃ s', st s = Except.ok s') :
    ∀ s, ∃ s', runSteps s L = Except.ok s' := by
  induction L with
  | nil => intro s; exact ⟨s, rfl⟩
  | cons st rest ih =>
      intro s
      obtain ⟨s1, hs1⟩ := h st (List.mem_cons_self st rest) s
      obtain ⟨s2, hs2⟩ :=
        ih (fun st' h' => h st' (List.mem_cons_of_mem st h')) s1
      exact ⟨s2, by simp only [runSteps, hs1, hs2]⟩

theorem runSteps_append (s : PrinterState) (L1 L2 : List MStep) :
    runSteps s (L1 ++ L2) =
      match runSteps s L1 with
      | Except.ok s1 => runSteps s1 L2
      | Except.error e => Except.error e := by
  induction L1 generalizing s with
  | nil => rfl
  | cons st rest ih =>
      cases hc : st s with
      | ok s' =>
          simp only [List.cons_append, runSteps, hc]
          exact ih s'
      | error s' => simp only [List.cons_append, runSteps, hc]

theorem stepField_ok {α : Type} (f : Field α)
    (ap : PrinterState → α → PrinterState) (hf : f ≠ Field.malformed)
    (s : PrinterState) : ∃ s', stepField f ap s = Except.ok s' := by
  cases f with
  | absent => exact ⟨s, rfl⟩
  | malformed => exact absurd rfl hf
  | val a => exact ⟨ap s a, rfl⟩

/-- Under `wellFormed` no merge step raises. -/
theorem mergeSteps_ok (now : ℚ) (pd : PrintData) (hwf : wellFormed pd) :
    ∀ st ∈ mergeSteps now pd, ∀ s, ∃ s', st s = Except.ok s' := by
  obtain ⟨h1, h2, h3, h4, h5, h6, h7, h8, h9, h10⟩ := hwf
  intro st hst
  simp only [mergeSteps, List.mem_cons, List.not_mem_nil, or_false] at hst
  rcases hst with rfl | rfl | rfl | rfl | rfl | rfl | rfl | rfl | rfl | rfl |
    rfl | rfl | rfl | rfl | rfl <;> intro s
  · rcases hg : pd.gcode_state with _ | g <;>
      · simp only [step_gcode_state, hg]
        exact ⟨_, rfl⟩
  · exact stepField_ok _ _ h1 s
  · exact stepField_ok _ _ h2 s
  · exact stepField_ok _ _ h3 s
  · exact stepField_ok _ _ h4 s
  · exact stepField_ok _ _ h5 s
  · exact stepField_ok _ _ h6 s
  · exact stepField_ok _ _ h7 s
  · exact stepField_ok _ _ h8 s
  · exact stepField_ok _ _ h9 s
  · exact ⟨_, rfl⟩
  · exact ⟨_, rfl⟩
  · exact ⟨_, rfl⟩
  · exact ⟨_, rfl⟩
  · exact ⟨_, rfl⟩

theorem runSteps_append_ok (s s1 : PrinterState) (L1 L2 : List MStep)
    (h : runSteps s L1 = Except.ok s1) :
    runSteps s (L1 ++ L2) = runSteps s1 L2 := by
  rw [runSteps_append, h]

theorem settle_cons_ok (st : MStep) (L : List MStep) (s s' : PrinterState)
    (h : st s = Except.ok s') :
    settle (runSteps s (st :: L)) = settle (runSteps s' L) := by
  simp only [runSteps, h]

theorem settle_cons_error (st : MStep) (L : List MStep) (s s' : PrinterState)
    (h : st s = Except.error s') :
    settle (runSteps s (st :: L)) = s' := by
  simp only [runSteps, h, settle]

/-! ### Field-locality of the merge (under `wellFormed`): one lemma per
merge-target store field, giving its value after `handle_report_message`. -/

theorem merge_gcode_state (s : PrinterState) (now : ℚ) (pd : PrintData) :
    (handleP s now pd).gcode_state =
      match pd.gcode_state with
      | some g => g
      | none => s.gcode_state := by
  rcases hf : pd.gcode_state with _ | g
  · show (settle (runSteps s (mergeSteps now pd))).gcode_state = s.gcode_state
    refine preserve_runSteps _ _ ?_ s
    intro st hst
    simp only [mergeSteps, List.mem_cons, List.not_mem_nil, or_false] at hst
    rcases hst with rfl | rfl | rfl | rfl | rfl | rfl | rfl | rfl | rfl | rfl |
      rfl | rfl | rfl | rfl | rfl <;>
      (intro s1
       simp only [step_gcode_state, step_bed_temper, step_bed_target_temper,
         step_nozzle_temper, step_nozzle_target_temper, step_mc_percent,
         step_mc_remaining_time, step_layer_num, step_total_layer_num,
         step_print_error, step_gcode_file, step_is_printing,
         step_print_stage, step_print_sub_stage, step_update_status,
         stepField, update_status, hf]) <;>
      (repeat' split) <;> rfl
  · show (settle (runSteps s (mergeSteps now pd))).gcode_state = g
    have hstep : step_gcode_state pd s =
        Except.ok { s with gcode_state := g, current_status := g } := by
      simp only [step_gcode_state, hf]
    simp only [mergeSteps]
    rw [settle_cons_ok _ _ _ _ hstep]
    refine Eq.trans (preserve_runSteps (fun st => st.gcode_state) _ ?_ _) rfl
    intro st hst
    simp only [List.mem_cons, List.not_mem_nil, or_false] at hst
    rcases hst with rfl | rfl | rfl | rfl | rfl | rfl | rfl | rfl | rfl | rfl |
      rfl | rfl | rfl | rfl <;>
      (intro s1
       simp only [step_gcode_state, step_bed_temper, step_bed_target_temper,
         step_nozzle_temper, step_nozzle_target_temper, step_mc_percent,
         step_mc_remaining_time, step_layer_num, step_total_layer_num,
         step_print_error, step_gcode_file, step_is_printing,
         step_print_stage, step_print_sub_stage, step_update_status,
         stepField, update_status]) <;>
      (repeat' split) <;> rfl

theorem merge_bed_temper (s : PrinterState) (now : ℚ) (pd : PrintData)
    (hwf : wellFormed pd) :
    (handleP s now pd).bed_temper =
      match pd.bed_temper with
      | Field.val q => some q
      | _ => s.bed_temper := by
  rcases hf : pd.bed_temper with _ | _ | q
  · show (settle (runSteps s (mergeSteps now pd))).bed_temper = s.bed_temper
    refine preserve_runSteps _ _ ?_ s
    intro st hst
    simp only [mergeSteps, List.mem_cons, List.not_mem_nil, or_false] at hst
    rcases hst with rfl | rfl | rfl | rfl | rfl | rfl | rfl | rfl | rfl | rfl |
      rfl | rfl | rfl | rfl | rfl <;>
      (intro s1
       simp only [step_gcode_state, step_bed_temper, step_bed_target_temper,
         step_nozzle_temper, step_nozzle_target_temper, step_mc_percent,
         step_mc_remaining_time, step_layer_num, step_total_layer_num,
         step_print_error, step_gcode_file, step_is_printing,
         step_print_stage, step_print_sub_stage, step_update_status,
         stepField, update_status, hf]) <;>
      (repeat' split) <;> rfl
  · exact absurd hf hwf.1
  · have hsplit : mergeSteps now pd =
        [step_gcode_state pd] ++ step_bed_temper now pd ::
          [step_bed_target_temper pd, step_nozzle_temper now pd,
           step_nozzle_target_temper pd, step_mc_percent pd,
           step_mc_remaining_time pd, step_layer_num pd,
           step_total_layer_num pd, step_print_error pd, step_gcode_file pd,
           step_is_printing, step_print_stage pd, step_print_sub_stage pd,
           step_update_status pd] := rfl
    show (settle (runSteps s (mergeSteps now pd))).bed_temper = some q
    obtain ⟨s1, hs1⟩ := runSteps_ok_of [step_gcode_state pd]
      (fun st hst s' => mergeSteps_ok now pd hwf st
        (by rw [hsplit]; exact List.mem_append_left _ hst) s') s
    rw [hsplit, runSteps_append_ok s s1 _ _ hs1]
    have hstep : step_bed_temper now pd s1 = Except.ok
        { s1 with bed_temper := some q, last_temp_update := now } := by
      simp only [step_bed_temper, stepField, hf]
    rw [settle_cons_ok _ _ _ _ hstep]
    refine Eq.trans (preserve_runSteps (fun st => st.bed_temper) _ ?_ _) rfl
    intro st hst
    simp only [List.mem_cons, List.not_mem_nil, or_false] at hst
    rcases hst with rfl | rfl | rfl | rfl | rfl | rfl | rfl | rfl | rfl | rfl |
      rfl | rfl | rfl <;>
      (intro s2
       simp only [step_gcode_state, step_bed_temper, step_bed_target_temper,
         step_nozzle_temper, step_nozzle_target_temper, step_mc_percent,
         step_mc_remaining_time, step_layer_num, step_total_layer_num,
         step_print_error, step_gcode_file, step_is_printing,
         step_print_stage, step_print_sub_stage, step_update_status,
         stepField, update_status]) <;>
      (repeat' split) <;> rfl

theorem merge_bed_target_temper (s : PrinterState) (now : ℚ) (pd : PrintData)
    (hwf : wellFormed pd) :
    (handleP s now pd).bed_target_temper =
      match pd.bed_target_temper with
      | Field.val q => some q
      | _ => s.bed_target_temper := by
  rcases hf : pd.bed_target_temper with _ | _ | q
  · show (settle (runSteps s (mergeSteps now pd))).bed_target_temper =
      s.bed_target_temper
    refine preserve_runSteps _ _ ?_ s
    intro st hst
    simp only [mergeSteps, List.mem_cons, List.not_mem_nil, or_false] at hst
    rcases hst with rfl | rfl | rfl | rfl | rfl | rfl | rfl | rfl | rfl | rfl |
      rfl | rfl | rfl | rfl | rfl <;>
      (intro s1
       simp only [step_gcode_state, step_bed_temper, step_bed_target_temper,
         step_nozzle_temper, step_nozzle_target_temper, step_mc_percent,
         step_mc_remaining_time, step_layer_num, step_total_layer_num,
         step_print_error, step_gcode_file, step_is_printing,
         step_print_stage, step_print_sub_stage, step_update_status,
         stepField, update_status, hf]) <;>
      (repeat' split) <;> rfl
  · exact absurd hf hwf.2.1
  · have hsplit : mergeSteps now pd =
        [step_gcode_state pd, step_bed_temper now pd] ++
          step_bed_target_temper pd ::
          [step_nozzle_temper now pd,
           step_nozzle_target_temper pd, step_mc_percent pd,
           step_mc_remaining_time pd, step_layer_num pd,
           step_total_layer_num pd, step_print_error pd, step_gcode_file pd,
           step_is_printing, step_print_stage pd, step_print_sub_stage pd,
           step_update_status pd] := rfl
    show (settle (runSteps s (mergeSteps now pd))).bed_target_temper = some q
    obtain ⟨s1, hs1⟩ := runSteps_ok_of
      [step_gcode_state pd, step_bed_temper now pd]
      (fun st hst s' => mergeSteps_ok now pd hwf st
        (by rw [hsplit]; exact List.mem_append_left _ hst) s') s
    rw [hsplit, runSteps_append_ok s s1 _ _ hs1]
    have hstep : step_bed_target_temper pd s1 = Except.ok
        { s1 with bed_target_temper := some q } := by
      simp only [step_bed_target_temper, stepField, hf]
    rw [settle_cons_ok _ _ _ _ hstep]
    refine Eq.trans
      (preserve_runSteps (fun st => st.bed_target_temper) _ ?_ _) rfl
    intro st hst
    simp only [List.mem_cons, List.not_mem_nil, or_false] at hst
    rcases hst with rfl | rfl | rfl | rfl | rfl | rfl | rfl | rfl | rfl | rfl |
      rfl | rfl <;>
      (intro s2
       simp only [step_gcode_state, step_bed_temper, step_bed_target_temper,
         step_nozzle_temper, step_nozzle_target_temper, step_mc_percent,
         step_mc_remaining_time, step_layer_num, step_total_layer_num,
         step_print_error, step_gcode_file, step_is_printing,
         step_print_stage, step_print_sub_stage, step_update_status,
         stepField, update_status]) <;>
      (repeat' split) <;> rfl

theorem merge_nozzle_temper (s : PrinterState) (now : ℚ) (pd : PrintData)
    (hwf : wellFormed pd) :
    (handleP s now pd).nozzle_temper =
      match pd.nozzle_temper with
      | Field.val q => some q
      | _ => s.nozzle_temper := by
  rcases hf : pd.nozzle_temper with _ | _ | q
  · show (settle (runSteps s (mergeSteps now pd))).nozzle_temper =
      s.nozzle_temper
    refine preserve_runSteps _ _ ?_ s
    intro st hst
    simp only [mergeSteps, List.mem_cons, List.not_mem_nil, or_false] at hst
    rcases hst with rfl | rfl | rfl | rfl | rfl | rfl | rfl | rfl | rfl | rfl |
      rfl | rfl | rfl | rfl | rfl <;>
      (intro s1
       simp only [step_gcode_state, step_bed_temper, step_bed_target_temper,
         step_nozzle_temper, step_nozzle_target_temper, step_mc_percent,
         step_mc_remaining_time, step_layer_num, step_total_layer_num,
         step_print_error, step_gcode_file, step_is_printing,
         step_print_stage, step_print_sub_stage, step_update_status,
         stepField, update_status, hf]) <;>
      (repeat' split) <;> rfl
  · exact absurd hf hwf.2.2.1
  · have hsplit : mergeSteps now pd =
        [step_gcode_state pd, step_bed_temper now pd,
         step_bed_target_temper pd] ++ step_nozzle_temper now pd ::
          [step_nozzle_target_temper pd, step_mc_percent pd,
           step_mc_remaining_time pd, step_layer_num pd,
           step_total_layer_num pd, step_print_error pd, step_gcode_file pd,
           step_is_printing, step_print_stage pd, step_print_sub_stage pd,
           step_update_status pd] := rfl
    show (settle (runSteps s (mergeSteps now pd))).nozzle_temper = some q
    obtain ⟨s1, hs1⟩ := runSteps_ok_of
      [step_gcode_state pd, step_bed_temper now pd, step_bed_target_temper pd]
      (fun st hst s' => mergeSteps_ok now pd hwf st
        (by rw [hsplit]; exact List.mem_append_left _ hst) s') s
    rw [hsplit, runSteps_append_ok s s1 _ _ hs1]
    have hstep : step_nozzle_temper now pd s1 = Except.ok
        { s1 with nozzle_temper := some q, last_temp_update := now } := by
      simp only [step_nozzle_temper, stepField, hf]
    rw [settle_cons_ok _ _ _ _ hstep]
    refine Eq.trans (preserve_runSteps (fun st => st.nozzle_temper) _ ?_ _) rfl
    intro st hst
    simp only [List.mem_cons, List.not_mem_nil, or_false] at hst
    rcases hst with rfl | rfl | rfl | rfl | rfl | rfl | rfl | rfl | rfl | rfl |
      rfl <;>
      (intro s2
       simp only [step_gcode_state, step_bed_temper, step_bed_target_temper,
         step_nozzle_temper, step_nozzle_target_temper, step_mc_percent,
         step_mc_remaining_time, step_layer_num, step_total_layer_num,
         step_print_error, step_gcode_file, step_is_printing,
         step_print_stage, step_print_sub_stage, step_update_status,
         stepField, update_status]) <;>
      (repeat' split) <;> rfl

theorem merge_nozzle_target_temper (s : PrinterState) (now : ℚ)
    (pd : PrintData) (hwf : wellFormed pd) :
    (handleP s now pd).nozzle_target_temper =
      match pd.nozzle_target_temper with
      | Field.val q => some q
      | _ => s.nozzle_target_temper := by
  rcases hf : pd.nozzle_target_temper with _ | _ | q
  · show (settle (runSteps s (mergeSteps now pd))).nozzle_target_temper =
      s.nozzle_target_temper
    refine preserve_runSteps _ _ ?_ s
    intro st hst
    simp only [mergeSteps, List.mem_cons, List.not_mem_nil, or_false] at hst
    rcases hst with rfl | rfl | rfl | rfl | rfl | rfl | rfl | rfl | rfl | rfl |
      rfl | rfl | rfl | rfl | rfl <;>
      (intro s1
       simp only [step_gcode_state, step_bed_temper, step_bed_target_temper,
         step_nozzle_temper, step_nozzle_target_temper, step_mc_percent,
         step_mc_remaining_time, step_layer_num, step_total_layer_num,
         step_print_error, step_gcode_file, step_is_printing,
         step_print_stage, step_print_sub_stage, step_update_status,
         stepField, update_status, hf]) <;>
      (repeat' split) <;> rfl
  · exact absurd hf hwf.2.2.2.1
  · have hsplit : mergeSteps now pd =
        [step_gcode_state pd, step_bed_temper now pd,
         step_bed_target_temper pd, step_nozzle_temper now pd] ++
          step_nozzle_target_temper pd ::
          [step_mc_percent pd,
           step_mc_remaining_time pd, step_layer_num pd,
           step_total_layer_num pd, step_print_error pd, step_gcode_file pd,
           step_is_printing, step_print_stage pd, step_print_sub_stage pd,
           step_update_status pd] := rfl
    show (settle (runSteps s (mergeSteps now pd))).nozzle_target_temper =
      some q
    obtain ⟨s1, hs1⟩ := runSteps_ok_of
      [step_gcode_state pd, step_bed_temper now pd, step_bed_target_temper pd,
       step_nozzle_temper now pd]
      (fun st hst s' => mergeSteps_ok now pd hwf st
        (by rw [hsplit]; exact List.mem_append_left _ hst) s') s
    rw [hsplit, runSteps_append_ok s s1 _ _ hs1]
    have hstep : step_nozzle_target_temper pd s1 = Except.ok
        { s1 with nozzle_target_temper := some q } := by
      simp only [step_nozzle_target_temper, stepField, hf]
    rw [settle_cons_ok _ _ _ _ hstep]
    refine Eq.trans
      (preserve_runSteps (fun st => st.nozzle_target_temper) _ ?_ _) rfl
    intro st hst
    simp only [List.mem_cons, List.not_mem_nil, or_false] at hst
    rcases hst with rfl | rfl | rfl | rfl | rfl | rfl | rfl | rfl | rfl |
      rfl <;>
      (intro s2
       simp only [step_gcode_state, step_bed_temper, step_bed_target_temper,
         step_nozzle_temper, step_nozzle_target_temper, step_mc_percent,
         step_mc_remaining_time, step_layer_num, step_total_layer_num,
         step_print_error, step_gcode_file, step_is_printing,
         step_print_stage, step_print_sub_stage, step_update_status,
         stepField, update_status]) <;>
      (repeat' split) <;> rfl

theorem merge_mc_percent (s : PrinterState) (now : ℚ) (pd : PrintData)
    (hwf : wellFormed pd) :
    (handleP s now pd).current_progress =
      match pd.mc_percent with
      | Field.val q => q
      | _ => s.current_progress := by
  rcases hf : pd.mc_percent with _ | _ | q
  · show (settle (runSteps s (mergeSteps now pd))).current_progress =
      s.current_progress
    refine preserve_runSteps _ _ ?_ s
    intro st hst
    simp only [mergeSteps, List.mem_cons, List.not_mem_nil, or_false] at hst
    rcases hst with rfl | rfl | rfl | rfl | rfl | rfl | rfl | rfl | rfl | rfl |
      rfl | rfl | rfl | rfl | rfl <;>
      (intro s1
       simp only [step_gcode_state, step_bed_temper, step_bed_target_temper,
         step_nozzle_temper, step_nozzle_target_temper, step_mc_percent,
         step_mc_remaining_time, step_layer_num, step_total_layer_num,
         step_print_error, step_gcode_file, step_is_printing,
         step_print_stage, step_print_sub_stage, step_update_status,
         stepField, update_status, hf]) <;>
      (repeat' split) <;> rfl
  · exact absurd hf hwf.2.2.2.2.1
  · have hsplit : mergeSteps now pd =
        [step_gcode_state pd, step_bed_temper now pd,
         step_bed_target_temper pd, step_nozzle_temper now pd,
         step_nozzle_target_temper pd] ++ step_mc_percent pd ::
          [step_mc_remaining_time pd, step_layer_num pd,
           step_total_layer_num pd, step_print_error pd, step_gcode_file pd,
           step_is_printing, step_print_stage pd, step_print_sub_stage pd,
           step_update_status pd] := rfl
    show (settle (runSteps s (mergeSteps now pd))).current_progress = q
    obtain ⟨s1, hs1⟩ := runSteps_ok_of
      [step_gcode_state pd, step_bed_temper now pd, step_bed_target_temper pd,
       step_nozzle_temper now pd, step_nozzle_target_temper pd]
      (fun st hst s' => mergeSteps_ok now pd hwf st
        (by rw [hsplit]; exact List.mem_append_left _ hst) s') s
    rw [hsplit, runSteps_append_ok s s1 _ _ hs1]
    have hstep : step_mc_percent pd s1 = Except.ok
        { s1 with current_progress := q } := by
      simp only [step_mc_percent, stepField, hf]
    rw [settle_cons_ok _ _ _ _ hstep]
    refine Eq.trans
      (preserve_runSteps (fun st => st.current_progress) _ ?_ _) rfl
    intro st hst
    simp only [List.mem_cons, List.not_mem_nil, or_false] at hst
    rcases hst with rfl | rfl | rfl | rfl | rfl | rfl | rfl | rfl | rfl <;>
      (intro s2
       simp only [step_gcode_state, step_bed_temper, step_bed_target_temper,
         step_nozzle_temper, step_nozzle_target_temper, step_mc_percent,
         step_mc_remaining_time, step_layer_num, step_total_layer_num,
         step_print_error, step_gcode_file, step_is_printing,
         step_print_stage, step_print_sub_stage, step_update_status,
         stepField, update_status]) <;>
      (repeat' split) <;> rfl

theorem merge_mc_remaining_time (s : PrinterState) (now : ℚ) (pd : PrintData)
    (hwf : wellFormed pd) :
    (handleP s now pd).remaining_time =
      match pd.mc_remaining_time with
      | Field.val n => n
      | _ => s.remaining_time := by
  rcases hf : pd.mc_remaining_time with _ | _ | n
  · show (settle (runSteps s (mergeSteps now pd))).remaining_time =
      s.remaining_time
    refine preserve_runSteps _ _ ?_ s
    intro st hst
    simp only [mergeSteps, List.mem_cons, List.not_mem_nil, or_false] at hst
    rcases hst with rfl | rfl | rfl | rfl | rfl | rfl | rfl | rfl | rfl | rfl |
      rfl | rfl | rfl | rfl | rfl <;>
      (intro s1
       simp only [step_gcode_state, step_bed_temper, step_bed_target_temper,
         step_nozzle_temper, step_nozzle_target_temper, step_mc_percent,
         step_mc_remaining_time, step_layer_num, step_total_layer_num,
         step_print_error, step_gcode_file, step_is_printing,
         step_print_stage, step_print_sub_stage, step_update_status,
         stepField, update_status, hf]) <;>
      (repeat' split) <;> rfl
  · exact absurd hf hwf.2.2.2.2.2.1
  · have hsplit : mergeSteps now pd =
        [step_gcode_state pd, step_bed_temper now pd,
         step_bed_target_temper pd, step_nozzle_temper now pd,
         step_nozzle_target_temper pd, step_mc_percent pd] ++
          step_mc_remaining_time pd ::
          [step_layer_num pd,
           step_total_layer_num pd, step_print_error pd, step_gcode_file pd,
           step_is_printing, step_print_stage pd, step_print_sub_stage pd,
           step_update_status pd] := rfl
    show (settle (runSteps s (mergeSteps now pd))).remaining_time = n
    obtain ⟨s1, hs1⟩ := runSteps_ok_of
      [step_gcode_state pd, step_bed_temper now pd, step_bed_target_temper pd,
       step_nozzle_temper now pd, step_nozzle_target_temper pd,
       step_mc_percent pd]
      (fun st hst s' => mergeSteps_ok now pd hwf st
        (by rw [hsplit]; exact List.mem_append_left _ hst) s') s
    rw [hsplit, runSteps_append_ok s s1 _ _ hs1]
    have hstep : step_mc_remaining_time pd s1 = Except.ok
        { s1 with remaining_time := n } := by
      simp only [step_mc_remaining_time, stepField, hf]
    rw [settle_cons_ok _ _ _ _ hstep]
    refine Eq.trans
      (preserve_runSteps (fun st => st.remaining_time) _ ?_ _) rfl
    intro st hst
    simp only [List.mem_cons, List.not_mem_nil, or_false] at hst
    rcases hst with rfl | rfl | rfl | rfl | rfl | rfl | rfl | rfl <;>
      (intro s2
       simp only [step_gcode_state, step_bed_temper, step_bed_target_temper,
         step_nozzle_temper, step_nozzle_target_temper, step_mc_percent,
         step_mc_remaining_time, step_layer_num, step_total_layer_num,
         step_print_error, step_gcode_file, step_is_printing,
         step_print_stage, step_print_sub_stage, step_update_status,
         stepField, update_status]) <;>
      (repeat' split) <;> rfl

theorem merge_layer_num (s : PrinterState) (now : ℚ) (pd : PrintData)
    (hwf : wellFormed pd) :
    (handleP s now pd).current_layer =
      match pd.layer_num with
      | Field.val n => n
      | _ => s.current_layer := by
  rcases hf : pd.layer_num with _ | _ | n
  · show (settle (runSteps s (mergeSteps now pd))).current_layer =
      s.current_layer
    refine preserve_runSteps _ _ ?_ s
    intro st hst
    simp only [mergeSteps, List.mem_cons, List.not_mem_nil, or_false] at hst
    rcases hst with rfl | rfl | rfl | rfl | rfl | rfl | rfl | rfl | rfl | rfl |
      rfl | rfl | rfl | rfl | rfl <;>
      (intro s1
       simp only [step_gcode_state, step_bed_temper, step_bed_target_temper,
         step_nozzle_temper, step_nozzle_target_temper, step_mc_percent,
         step_mc_remaining_time, step_layer_num, step_total_layer_num,
         step_print_error, step_gcode_file, step_is_printing,
         step_print_stage, step_print_sub_stage, step_update_status,
         stepField, update_status, hf]) <;>
      (repeat' split) <;> rfl
  · exact absurd hf hwf.2.2.2.2.2.2.1
  · have hsplit : mergeSteps now pd =
        [step_gcode_state pd, step_bed_temper now pd,
         step_bed_target_temper pd, step_nozzle_temper now pd,
         step_nozzle_target_temper pd, step_mc_percent pd,
         step_mc_remaining_time pd] ++ step_layer_num pd ::
          [step_total_layer_num pd, step_print_error pd, step_gcode_file pd,
           step_is_printing, step_print_stage pd, step_print_sub_stage pd,
           step_update_status pd] := rfl
    show (settle (runSteps s (mergeSteps now pd))).current_layer = n
    obtain ⟨s1, hs1⟩ := runSteps_ok_of
      [step_gcode_state pd, step_bed_temper now pd, step_bed_target_temper pd,
       step_nozzle_temper now pd, step_nozzle_target_temper pd,
       step_mc_percent pd, step_mc_remaining_time pd]
      (fun st hst s' => mergeSteps_ok now pd hwf st
        (by rw [hsplit]; exact List.mem_append_left _ hst) s') s
    rw [hsplit, runSteps_append_ok s s1 _ _ hs1]
    have hstep : step_layer_num pd s1 = Except.ok
        { s1 with current_layer := n } := by
      simp only [step_layer_num, stepField, hf]
    rw [settle_cons_ok _ _ _ _ hstep]
    refine Eq.trans
      (preserve_runSteps (fun st => st.current_layer) _ ?_ _) rfl
    intro st hst
    simp only [List.mem_cons, List.not_mem_nil, or_false] at hst
    rcases hst with rfl | rfl | rfl | rfl | rfl | rfl | rfl <;>
      (intro s2
       simp only [step_gcode_state, step_bed_temper, step_bed_target_temper,
         step_nozzle_temper, step_nozzle_target_temper, step_mc_percent,
         step_mc_remaining_time, step_layer_num, step_total_layer_num,
         step_print_error, step_gcode_file, step_is_printing,
         step_print_stage, step_print_sub_stage, step_update_status,
         stepField, update_status]) <;>
      (repeat' split) <;> rfl

theorem merge_total_layer_num (s : PrinterState) (now : ℚ) (pd : PrintData)
    (hwf : wellFormed pd) :
    (handleP s now pd).total_layer_num =
      match pd.total_layer_num with
      | Field.val n => n
      | _ => s.total_layer_num := by
  rcases hf : pd.total_layer_num with _ | _ | n
  · show (settle (runSteps s (mergeSteps now pd))).total_layer_num =
      s.total_layer_num
    refine preserve_runSteps _ _ ?_ s
    intro st hst
    simp only [mergeSteps, List.mem_cons, List.not_mem_nil, or_false] at hst
    rcases hst with rfl | rfl | rfl | rfl | rfl | rfl | rfl | rfl | rfl | rfl |
      rfl | rfl | rfl | rfl | rfl <;>
      (intro s1
       simp only [step_gcode_state, step_bed_temper, step_bed_target_temper,
         step_nozzle_temper, step_nozzle_target_temper, step_mc_percent,
         step_mc_remaining_time, step_layer_num, step_total_layer_num,
         step_print_error, step_gcode_file, step_is_printing,
         step_print_stage, step_print_sub_stage, step_update_status,
         stepField, update_status, hf]) <;>
      (repeat' split) <;> rfl
  · exact absurd hf hwf.2.2.2.2.2.2.2.1
  · have hsplit : mergeSteps now pd =
        [step_gcode_state pd, step_bed_temper now pd,
         step_bed_target_temper pd, step_nozzle_temper now pd,
         step_nozzle_target_temper pd, step_mc_percent pd,
         step_mc_remaining_time pd, step_layer_num pd] ++
          step_total_layer_num pd ::
          [step_print_error pd, step_gcode_file pd,
           step_is_printing, step_print_stage pd, step_print_sub_stage pd,
           step_update_status pd] := rfl
    show (settle (runSteps s (mergeSteps now pd))).total_layer_num = n
    obtain ⟨s1, hs1⟩ := runSteps_ok_of
      [step_gcode_state pd, step_bed_temper now pd, step_bed_target_temper pd,
       step_nozzle_temper now pd, step_nozzle_target_temper pd,
       step_mc_percent pd, step_mc_remaining_time pd, step_layer_num pd]
      (fun st hst s' => mergeSteps_ok now pd hwf st
        (by rw [hsplit]; exact List.mem_append_left _ hst) s') s
    rw [hsplit, runSteps_append_ok s s1 _ _ hs1]
    have hstep : step_total_layer_num pd s1 = Except.ok
        { s1 with total_layer_num := n } := by
      simp only [step_total_layer_num, stepField, hf]
    rw [settle_cons_ok _ _ _ _ hstep]
    refine Eq.trans
      (preserve_runSteps (fun st => st.total_layer_num) _ ?_ _) rfl
    intro st hst
    simp only [List.mem_cons, List.not_mem_nil, or_false] at hst
    rcases hst with rfl | rfl | rfl | rfl | rfl | rfl <;>
      (intro s2
       simp only [step_gcode_state, step_bed_temper, step_bed_target_temper,
         step_nozzle_temper, step_nozzle_target_temper, step_mc_percent,
         step_mc_remaining_time, step_layer_num, step_total_layer_num,
         step_print_error, step_gcode_file, step_is_printing,
         step_print_stage, step_print_sub_stage, step_update_status,
         stepField, update_status]) <;>
      (repeat' split) <;> rfl

theorem merge_print_error (s : PrinterState) (now : ℚ) (pd : PrintData)
    (hwf : wellFormed pd) :
    (handleP s now pd).print_error =
      match pd.print_error with
      | Field.val n => n
      | _ => s.print_error := by
  rcases hf : pd.print_error with _ | _ | n
  · show (settle (runSteps s (mergeSteps now pd))).print_error =
      s.print_error
    refine preserve_runSteps _ _ ?_ s
    intro st hst
    simp only [mergeSteps, List.mem_cons, List.not_mem_nil, or_false] at hst
    rcases hst with rfl | rfl | rfl | rfl | rfl | rfl | rfl | rfl | rfl | rfl |
      rfl | rfl | rfl | rfl | rfl <;>
      (intro s1
       simp only [step_gcode_state, step_bed_temper, step_bed_target_temper,
         step_nozzle_temper, step_nozzle_target_temper, step_mc_percent,
         step_mc_remaining_time, step_layer_num, step_total_layer_num,
         step_print_error, step_gcode_file, step_is_printing,
         step_print_stage, step_print_sub_stage, step_update_status,
         stepField, update_status, hf]) <;>
      (repeat' split) <;> rfl
  · exact absurd hf hwf.2.2.2.2.2.2.2.2.1
  · have hsplit : mergeSteps now pd =
        [step_gcode_state pd, step_bed_temper now pd,
         step_bed_target_temper pd, step_nozzle_temper now pd,
         step_nozzle_target_temper pd, step_mc_percent pd,
         step_mc_remaining_time pd, step_layer_num pd,
         step_total_layer_num pd] ++ step_print_error pd ::
          [step_gcode_file pd,
           step_is_printing, step_print_stage pd, step_print_sub_stage pd,
           step_update_status pd] := rfl
    show (settle (runSteps s (mergeSteps now pd))).print_error = n
    obtain ⟨s1, hs1⟩ := runSteps_ok_of
      [step_gcode_state pd, step_bed_temper now pd, step_bed_target_temper pd,
       step_nozzle_temper now pd, step_nozzle_target_temper pd,
       step_mc_percent pd, step_mc_remaining_time pd, step_layer_num pd,
       step_total_layer_num pd]
      (fun st hst s' => mergeSteps_ok now pd hwf st
        (by rw [hsplit]; exact List.mem_append_left _ hst) s') s
    rw [hsplit, runSteps_append_ok s s1 _ _ hs1]
    have hstep : step_print_error pd s1 = Except.ok
        { s1 with print_error := n } := by
      simp only [step_print_error, stepField, hf]
    rw [settle_cons_ok _ _ _ _ hstep]
    refine Eq.trans
      (preserve_runSteps (fun st => st.print_error) _ ?_ _) rfl
    intro st hst
    simp only [List.mem_cons, List.not_mem_nil, or_false] at hst
    rcases hst with rfl | rfl | rfl | rfl | rfl <;>
      (intro s2
       simp only [step_gcode_state, step_bed_temper, step_bed_target_temper,
         step_nozzle_temper, step_nozzle_target_temper, step_mc_percent,
         step_mc_remaining_time, step_layer_num, step_total_layer_num,
         step_print_error, step_gcode_file, step_is_printing,
         step_print_stage, step_print_sub_stage, step_update_status,
         stepField, update_status]) <;>
      (repeat' split) <;> rfl

theorem merge_gcode_file (s : PrinterState) (now : ℚ) (pd : PrintData)
    (hwf : wellFormed pd) :
    (handleP s now pd).last_known_file =
      match pd.gcode_file with
      | some f => if f = "" then s.last_known_file else some f
      | none => s.last_known_file := by
  have hsplit : mergeSteps now pd =
      [step_gcode_state pd, step_bed_temper now pd,
       step_bed_target_temper pd, step_nozzle_temper now pd,
       step_nozzle_target_temper pd, step_mc_percent pd,
       step_mc_remaining_time pd, step_layer_num pd,
       step_total_layer_num pd, step_print_error pd] ++ step_gcode_file pd ::
        [step_is_printing, step_print_stage pd, step_print_sub_stage pd,
         step_update_status pd] := rfl
  show (settle (runSteps s (mergeSteps now pd))).last_known_file = _
  obtain ⟨s1, hs1⟩ := runSteps_ok_of
    [step_gcode_state pd, step_bed_temper now pd, step_bed_target_temper pd,
     step_nozzle_temper now pd, step_nozzle_target_temper pd,
     step_mc_percent pd, step_mc_remaining_time pd, step_layer_num pd,
     step_total_layer_num pd, step_print_error pd]
    (fun st hst s' => mergeSteps_ok now pd hwf st
      (by rw [hsplit]; exact List.mem_append_left _ hst) s') s
  have hs1p : s1.last_known_file = s.last_known_file := by
    have := preserve_runSteps (fun st => st.last_known_file)
      [step_gcode_state pd, step_bed_temper now pd, step_bed_target_temper pd,
       step_nozzle_temper now pd, step_nozzle_target_temper pd,
       step_mc_percent pd, step_mc_remaining_time pd, step_layer_num pd,
       step_total_layer_num pd, step_print_error pd] ?_ s
    · rw [hs1, settle_ok] at this; exact this
    · intro st hst
      simp only [List.mem_cons, List.not_mem_nil, or_false] at hst
      rcases hst with rfl | rfl | rfl | rfl | rfl | rfl | rfl | rfl | rfl |
        rfl <;>
        (intro s2
         simp only [step_gcode_state, step_bed_temper, step_bed_target_temper,
           step_nozzle_temper, step_nozzle_target_temper, step_mc_percent,
           step_mc_remaining_time, step_layer_num, step_total_layer_num,
           step_print_error, stepField]) <;>
        (repeat' split) <;> rfl
  have hstep : step_gcode_file pd s1 = Except.ok
      (match pd.gcode_file with
       | some f => if f = "" then s1 else { s1 with last_known_file := some f }
       | none => s1) := rfl
  rw [hsplit, runSteps_append_ok s s1 _ _ hs1, settle_cons_ok _ _ _ _ hstep]
  have hpost : ∀ st ∈
      [step_is_printing, step_print_stage pd, step_print_sub_stage pd,
       step_update_status pd],
      Preserves (fun st => st.last_known_file) st := by
    intro st hst
    simp only [List.mem_cons, List.not_mem_nil, or_false] at hst
    rcases hst with rfl | rfl | rfl | rfl <;>
      (intro s2
       simp only [step_is_printing, step_print_stage, step_print_sub_stage,
         step_update_status, update_status]) <;>
      (repeat' split) <;> rfl
  rw [preserve_runSteps (fun st => st.last_known_file) _ hpost _]
  rcases pd.gcode_file with _ | f
  · exact hs1p
  · by_cases hf : f = "" <;> simp [hf, hs1p]

theorem merge_print_stage (s : PrinterState) (now : ℚ) (pd : PrintData)
    (hwf : wellFormed pd) :
    (handleP s now pd).print_stage =
      match pd.mc_print_stage with
      | some v => v
      | none => s.print_stage := by
  have hsplit : mergeSteps now pd =
      [step_gcode_state pd, step_bed_temper now pd,
       step_bed_target_temper pd, step_nozzle_temper now pd,
       step_nozzle_target_temper pd, step_mc_percent pd,
       step_mc_remaining_time pd, step_layer_num pd,
       step_total_layer_num pd, step_print_error pd, step_gcode_file pd,
       step_is_printing] ++ step_print_stage pd ::
        [step_print_sub_stage pd, step_update_status pd] := rfl
  show (settle (runSteps s (mergeSteps now pd))).print_stage = _
  obtain ⟨s1, hs1⟩ := runSteps_ok_of
    [step_gcode_state pd, step_bed_temper now pd, step_bed_target_temper pd,
     step_nozzle_temper now pd, step_nozzle_target_temper pd,
     step_mc_percent pd, step_mc_remaining_time pd, step_layer_num pd,
     step_total_layer_num pd, step_print_error pd, step_gcode_file pd,
     step_is_printing]
    (fun st hst s' => mergeSteps_ok now pd hwf st
      (by rw [hsplit]; exact List.mem_append_left _ hst) s') s
  have hs1p : s1.print_stage = s.print_stage := by
    have := preserve_runSteps (fun st => st.print_stage)
      [step_gcode_state pd, step_bed_temper now pd, step_bed_target_temper pd,
       step_nozzle_temper now pd, step_nozzle_target_temper pd,
       step_mc_percent pd, step_mc_remaining_time pd, step_layer_num pd,
       step_total_layer_num pd, step_print_error pd, step_gcode_file pd,
       step_is_printing] ?_ s
    · rw [hs1, settle_ok] at this; exact this
    · intro st hst
      simp only [List.mem_cons, List.not_mem_nil, or_false] at hst
      rcases hst with rfl | rfl | rfl | rfl | rfl | rfl | rfl | rfl | rfl |
        rfl | rfl | rfl <;>
        (intro s2
         simp only [step_gcode_state, step_bed_temper, step_bed_target_temper,
           step_nozzle_temper, step_nozzle_target_temper, step_mc_percent,
           step_mc_remaining_time, step_layer_num, step_total_layer_num,
           step_print_error, step_gcode_file, step_is_printing,
           stepField]) <;>
        (repeat' split) <;> rfl
  have hstep : step_print_stage pd s1 = Except.ok
      (match pd.mc_print_stage with
       | some v => { s1 with print_stage := v }
       | none => s1) := rfl
  rw [hsplit, runSteps_append_ok s s1 _ _ hs1, settle_cons_ok _ _ _ _ hstep]
  have hpost : ∀ st ∈ [step_print_sub_stage pd, step_update_status pd],
      Preserves (fun st => st.print_stage) st := by
    intro st hst
    simp only [List.mem_cons, List.not_mem_nil, or_false] at hst
    rcases hst with rfl | rfl <;>
      (intro s2
       simp only [step_print_sub_stage, step_update_status,
         update_status]) <;>
      (repeat' split) <;> rfl
  rw [preserve_runSteps (fun st => st.print_stage) _ hpost _]
  rcases pd.mc_print_stage with _ | v
  · exact hs1p
  · rfl

theorem merge_print_sub_stage (s : PrinterState) (now : ℚ) (pd : PrintData)
    (hwf : wellFormed pd) :
    (handleP s now pd).print_sub_stage =
      match pd.mc_print_sub_stage with
      | some v => v
      | none => s.print_sub_stage := by
  have hsplit : mergeSteps now pd =
      [step_gcode_state pd, step_bed_temper now pd,
       step_bed_target_temper pd, step_nozzle_temper now pd,
       step_nozzle_target_temper pd, step_mc_percent pd,
       step_mc_remaining_time pd, step_layer_num pd,
       step_total_layer_num pd, step_print_error pd, step_gcode_file pd,
       step_is_printing, step_print_stage pd] ++ step_print_sub_stage pd ::
        [step_update_status pd] := rfl
  show (settle (runSteps s (mergeSteps now pd))).print_sub_stage = _
  obtain ⟨s1, hs1⟩ := runSteps_ok_of
    [step_gcode_state pd, step_bed_temper now pd, step_bed_target_temper pd,
     step_nozzle_temper now pd, step_nozzle_target_temper pd,
     step_mc_percent pd, step_mc_remaining_time pd, step_layer_num pd,
     step_total_layer_num pd, step_print_error pd, step_gcode_file pd,
     step_is_printing, step_print_stage pd]
    (fun st hst s' => mergeSteps_ok now pd hwf st
      (by rw [hsplit]; exact List.mem_append_left _ hst) s') s
  have hs1p : s1.print_sub_stage = s.print_sub_stage := by
    have := preserve_runSteps (fun st => st.print_sub_stage)
      [step_gcode_state pd, step_bed_temper now pd, step_bed_target_temper pd,
       step_nozzle_temper now pd, step_nozzle_target_temper pd,
       step_mc_percent pd, step_mc_remaining_time pd, step_layer_num pd,
       step_total_layer_num pd, step_print_error pd, step_gcode_file pd,
       step_is_printing, step_print_stage pd] ?_ s
    · rw [hs1, settle_ok] at this; exact this
    · intro st hst
      simp only [List.mem_cons, List.not_mem_nil, or_false] at hst
      rcases hst with rfl | rfl | rfl | rfl | rfl | rfl | rfl | rfl | rfl |
        rfl | rfl | rfl | rfl <;>
        (intro s2
         simp only [step_gcode_state, step_bed_temper, step_bed_target_temper,
           step_nozzle_temper, step_nozzle_target_temper, step_mc_percent,
           step_mc_remaining_time, step_layer_num, step_total_layer_num,
           step_print_error, step_gcode_file, step_is_printing,
           step_print_stage, stepField]) <;>
        (repeat' split) <;> rfl
  have hstep : step_print_sub_stage pd s1 = Except.ok
      (match pd.mc_print_sub_stage with
       | some v => { s1 with print_sub_stage := v }
       | none => s1) := rfl
  rw [hsplit, runSteps_append_ok s s1 _ _ hs1, settle_cons_ok _ _ _ _ hstep]
  have hpost : ∀ st ∈ [step_update_status pd],
      Preserves (fun st => st.print_sub_stage) st := by
    intro st hst
    simp only [List.mem_cons, List.not_mem_nil, or_false] at hst
    rcases hst with rfl
    intro s2
    rfl
  rw [preserve_runSteps (fun st => st.print_sub_stage) _ hpost _]
  rcases pd.mc_print_sub_stage with _ | v
  · exact hs1p
  · rfl

/-! ### The canonical status after a merge -/

/-- Under `wellFormed`, the merge ends with `update_status` applied to the
fully merged field state. -/
theorem merge_shape (s : PrinterState) (now : ℚ) (pd : PrintData)
    (hwf : wellFormed pd) :
    ∃ m, handleP s now pd = update_status m pd := by
  have hsplit : mergeSteps now pd =
      [step_gcode_state pd, step_bed_temper now pd,
       step_bed_target_temper pd, step_nozzle_temper now pd,
       step_nozzle_target_temper pd, step_mc_percent pd,
       step_mc_remaining_time pd, step_layer_num pd,
       step_total_layer_num pd, step_print_error pd, step_gcode_file pd,
       step_is_printing, step_print_stage pd, step_print_sub_stage pd] ++
        step_update_status pd :: [] := rfl
  obtain ⟨s1, hs1⟩ := runSteps_ok_of
    [step_gcode_state pd, step_bed_temper now pd, step_bed_target_temper pd,
     step_nozzle_temper now pd, step_nozzle_target_temper pd,
     step_mc_percent pd, step_mc_remaining_time pd, step_layer_num pd,
     step_total_layer_num pd, step_print_error pd, step_gcode_file pd,
     step_is_printing, step_print_stage pd, step_print_sub_stage pd]
    (fun st hst s' => mergeSteps_ok now pd hwf st
      (by rw [hsplit]; exact List.mem_append_left _ hst) s') s
  refine ⟨s1, ?_⟩
  show settle (runSteps s (mergeSteps now pd)) = update_status s1 pd
  rw [hsplit, runSteps_append_ok s s1 _ _ hs1]
  rfl

/-- `resolve_status` never reads `current_status` except in the AMS
conversion-failure branch. -/
theorem resolve_status_cs (s : PrinterState) (pd : PrintData) (x : String)
    (hams : pd.ams_status ≠ Field.malformed) :
    resolve_status { s with current_status := x } pd = resolve_status s pd := by
  rcases ha : pd.ams_status with _ | _ | a
  · cases pd.upload <;>
      simp [resolve_status, resolve_after_upload, resolve_ams, resolve_rest,
        ha]
  · exact absurd ha hams
  · cases pd.upload <;>
      simp [resolve_status, resolve_after_upload, resolve_ams, resolve_rest,
        ha]

/-- After a well-formed merge the stored canonical status is the resolver
applied to the resulting state and the triggering payload. -/
theorem status_resolved (s : PrinterState) (now : ℚ) (pd : PrintData)
    (hwf : wellFormed pd) :
    (handleP s now pd).current_status =
      resolve_status (handleP s now pd) pd := by
  obtain ⟨m, hm⟩ := merge_shape s now pd hwf
  rw [hm]
  show resolve_status m pd = resolve_status (update_status m pd) pd
  exact (resolve_status_cs m pd (resolve_status m pd)
    hwf.2.2.2.2.2.2.2.2.2).symm

/-- `resolve_status` depends only on the four stored lifecycle fields it
reads and on the payload's `upload`, `ams_status` and `online` entries. -/
theorem resolve_congr (s s' : PrinterState) (pd pd' : PrintData)
    (he : s.print_error = s'.print_error)
    (hg : s.gcode_state = s'.gcode_state)
    (hp : s.print_stage = s'.print_stage)
    (hq : s.print_sub_stage = s'.print_sub_stage)
    (hu : pd.upload = pd'.upload)
    (ha : pd.ams_status = pd'.ams_status)
    (ho : pd.online = pd'.online)
    (hnm : pd.ams_status ≠ Field.malformed) :
    resolve_status s pd = resolve_status s' pd' := by
  rcases hav : pd.ams_status with _ | _ | a
  · simp only [resolve_status, resolve_after_upload, resolve_ams,
      resolve_rest, ← hu, ← ho, ← ha, hav, he, hg, hp, hq]
  · exact absurd hav hnm
  · simp only [resolve_status, resolve_after_upload, resolve_ams,
      resolve_rest, ← hu, ← ho, ← ha, hav, he, hg, hp, hq]

/-- A state with its canonical status field blanked: the "stored field set"
of a state, for comparing states up to `current_status`. -/
def eraseStatus (s : PrinterState) : PrinterState :=
  { s with current_status := "" }

/-! ### Renderer helper lemmas -/

theorem idle_last_temp_update (s : PrinterState) (now : ℚ) (draw : Fin 4) :
    (update_idle_message s now draw).last_temp_update = s.last_temp_update := by
  unfold update_idle_message; split <;> rfl

theorem idle_is_printing (s : PrinterState) (now : ℚ) (draw : Fin 4) :
    (update_idle_message s now draw).is_printing = s.is_printing := by
  unfold update_idle_message; split <;> rfl

theorem idle_remaining_time (s : PrinterState) (now : ℚ) (draw : Fin 4) :
    (update_idle_message s now draw).remaining_time = s.remaining_time := by
  unfold update_idle_message; split <;> rfl

theorem idle_last_update_time (s : PrinterState) (now : ℚ) (draw : Fin 4) :
    (update_idle_message s now draw).last_update_time =
      s.last_update_time := by
  unfold update_idle_message; split <;> rfl

theorem idle_bed_temper (s : PrinterState) (now : ℚ) (draw : Fin 4) :
    (update_idle_message s now draw).bed_temper = s.bed_temper := by
  unfold update_idle_message; split <;> rfl

theorem idle_bed_target_temper (s : PrinterState) (now : ℚ) (draw : Fin 4) :
    (update_idle_message s now draw).bed_target_temper =
      s.bed_target_temper := by
  unfold update_idle_message; split <;> rfl

theorem idle_nozzle_temper (s : PrinterState) (now : ℚ) (draw : Fin 4) :
    (update_idle_message s now draw).nozzle_temper = s.nozzle_temper := by
  unfold update_idle_message; split <;> rfl

theorem idle_nozzle_target_temper (s : PrinterState) (now : ℚ)
    (draw : Fin 4) :
    (update_idle_message s now draw).nozzle_target_temper =
      s.nozzle_target_temper := by
  unfold update_idle_message; split <;> rfl

/-- A throttled tick is a strict no-op: state unchanged, nothing emitted. -/
theorem up_noop (s : PrinterState) (now : ℚ) (draw : Fin 4) (rpcOk : Bool)
    (h : now - s.last_update_time < update_interval) :
    update_presence s now draw rpcOk = (s, none) := by
  unfold update_presence; rw [if_pos h]

/-- An unthrottled tick with a succeeding display call emits a payload and
advances the throttle timestamp to `now`. -/
theorem up_fire (s : PrinterState) (now : ℚ) (draw : Fin 4)
    (h : ¬ now - s.last_update_time < update_interval) :
    (update_presence s now draw true).2.isSome = true ∧
      (update_presence s now draw true).1.last_update_time = now := by
  unfold update_presence
  rw [if_neg h]
  exact ⟨rfl, rfl⟩

/-- An unthrottled tick whose display call raises emits nothing and leaves
the throttle timestamp unchanged. -/
theorem up_fail (s : PrinterState) (now : ℚ) (draw : Fin 4)
    (h : ¬ now - s.last_update_time < update_interval) :
    (update_presence s now draw false).2 = none ∧
      (update_presence s now draw false).1.last_update_time =
        s.last_update_time := by
  unfold update_presence
  rw [if_neg h]
  refine ⟨rfl, ?_⟩
  show (if s.is_printing then s
      else update_idle_message s now draw).last_update_time =
    s.last_update_time
  split
  · rfl
  · exact idle_last_update_time s now draw

/-! ### Claim theorems -/

/-- C1: whenever the stored error code is nonzero and the upload branch does
not fire, `update_status` resolves the canonical status to the error label
carrying that code — for every state and payload, in particular those where
an AMS filament-change signal (`ams_status` 1 or 2) and the
RUNNING/preparing-stage mapping are simultaneously true, which are therefore
overridden. -/
theorem C1_error_precedence (s : PrinterState) (pd : PrintData)
    (hup : ∀ u, pd.upload = some u → u.status = some "idle")
    (herr : s.print_error ≠ 0) :
    (update_status s pd).current_status =
      "ERROR_" ++ toString s.print_error := by
  show resolve_status s pd = _
  rcases hu : pd.upload with _ | u
  · simp [resolve_status, resolve_after_upload, hu, herr]
  · simp [resolve_status, resolve_after_upload, hu, hup u hu, herr]

/-- A state with error code 5 that is simultaneously RUNNING in the
preparing print stage. -/
def C1s : PrinterState :=
  { init_state 0 with
    print_error := 5, gcode_state := "RUNNING", print_stage := JVal.jstr "1",
    print_sub_stage := JVal.jnum 2 }

/-- A `print` payload with every key absent. -/
def emptyPD : PrintData :=
  ⟨none, Field.absent, Field.absent, Field.absent, Field.absent, Field.absent,
   Field.absent, Field.absent, Field.absent, Field.absent, none, none, none,
   Field.absent, none, none⟩

/-- A payload carrying an active AMS filament-change signal. -/
def C1pd : PrintData := { emptyPD with ams_status := Field.val 1 }

/-- C1 witness: with error code 5, AMS status 1 and the RUNNING/preparing
stage simultaneously true, the resolver yields `ERROR_5`. -/
theorem C1_witness :
    (C1pd.ams_status = Field.val 1 ∧ C1s.gcode_state = "RUNNING" ∧
      C1s.print_stage = JVal.jstr "1" ∧ C1s.print_error = 5) ∧
    (update_status C1s C1pd).current_status = "ERROR_5" := by
  refine ⟨by decide, ?_⟩
  have h := C1_error_precedence C1s C1pd
    (fun u hu => by
      rw [show C1pd.upload = none from rfl] at hu
      exact Option.noConfusion hu)
    (by decide)
  rw [h]
  rfl

/-- C6: a renderer tick less than 15 seconds after the previous successful
render is a no-op (emits nothing), and a tick at least 15 seconds after it
(with the display call succeeding) emits exactly one payload. -/
theorem C6_throttle (s : PrinterState) (t1 t2 : ℚ) (d1 d2 : Fin 4)
    (ok2 : Bool)
    (h1 : ¬ t1 - s.last_update_time < update_interval) :
    (update_presence s t1 d1 true).2.isSome = true ∧
    (t2 - t1 < update_interval →
      (update_presence (update_presence s t1 d1 true).1 t2 d2 ok2).2 =
        none) ∧
    (¬ t2 - t1 < update_interval →
      (update_presence (update_presence s t1 d1 true).1 t2 d2
        true).2.isSome = true) := by
  obtain ⟨hemit, hlast⟩ := up_fire s t1 d1 h1
  refine ⟨hemit, ?_, ?_⟩
  · intro h2
    rw [up_noop (update_presence s t1 d1 true).1 t2 d2 ok2
      (by rw [hlast]; exact h2)]
  · intro h2
    exact (up_fire _ t2 d2 (by rw [hlast]; exact h2)).1

/-- C6 witness: from the initial state, a tick at t=20 emits and a second
tick at t=30 (less than 15 s later) emits nothing. -/
theorem C6_witness :
    (update_presence (init_state 0) 20 0 true).2.isSome = true ∧
    (update_presence (update_presence (init_state 0) 20 0 true).1 30 0
      true).2 = none := by
  have h := C6_throttle (init_state 0) 20 30 0 0 true
    (by norm_num [init_state, update_interval])
  exact ⟨h.1, h.2.1 (by norm_num [update_interval])⟩

/-- C7: a render tick whose display call fails emits nothing, is caught (the
embedding returns a state instead of propagating), does not advance the
throttle timestamp, and a later tick past the 15-second threshold retries
and emits. -/
theorem C7_render_failure (s : PrinterState) (now : ℚ) (draw : Fin 4) :
    (update_presence s now draw false).2 = none ∧
    (update_presence s now draw false).1.last_update_time =
      s.last_update_time ∧
    ∀ (t2 : ℚ) (d2 : Fin 4),
      ¬ t2 - (update_presence s now draw false).1.last_update_time <
        update_interval →
      (update_presence (update_presence s now draw false).1 t2 d2
        true).2.isSome = true := by
  by_cases h : now - s.last_update_time < update_interval
  · rw [up_noop s now draw false h]
    exact ⟨rfl, rfl, fun t2 d2 h2 => (up_fire s t2 d2 h2).1⟩
  · obtain ⟨h1, h2⟩ := up_fail s now draw h
    exact ⟨h1, h2, fun t2 d2 h3 => (up_fire _ t2 d2 h3).1⟩

/-- C7 witness: a failing tick at t=20 emits nothing, and the retry at t=40
succeeds. -/
theorem C7_witness :
    (update_presence (init_state 0) 20 0 false).2 = none ∧
    (update_presence (update_presence (init_state 0) 20 0 false).1 40 0
      true).2.isSome = true := by
  have h := C7_render_failure (init_state 0) 20 0
  refine ⟨h.1, h.2.2 40 0 ?_⟩
  rw [h.2.1]
  norm_num [init_state, update_interval]

/-- C8: an idle-message query within 600 seconds of the last selection
returns the state (and thus the same phrase) unchanged; a query at or past
the 600-second interval stores the freshly drawn phrase (the draw index is
the `random.choice` oracle, uniform over the fixed four-phrase list, and is
unconstrained — so the new draw may repeat the old phrase). -/
theorem C8_idle_rotation (s : PrinterState) (now : ℚ) (draw : Fin 4) :
    (∀ m, s.selected_idle_message = some m →
      now - s.last_idle_message_time < idle_message_interval →
      update_idle_message s now draw = s) ∧
    (idle_message_interval ≤ now - s.last_idle_message_time →
      (update_idle_message s now draw).selected_idle_message =
        some (idle_messages.get ⟨draw.val, draw.isLt⟩) ∧
      (update_idle_message s now draw).last_idle_message_time = now) := by
  constructor
  · intro m hm hlt
    unfold update_idle_message
    rw [if_neg]
    rintro (h | h)
    · exact absurd h (not_le.mpr hlt)
    · rw [hm] at h; exact Option.noConfusion h
  · intro hge
    unfold update_idle_message
    rw [if_pos (Or.inl hge)]
    exact ⟨rfl, rfl⟩

/-- A state that selected its idle phrase at time 50. -/
def C8s : PrinterState :=
  { init_state 0 with
    selected_idle_message := some "System Ready",
    last_idle_message_time := 50 }

/-- C8 witness: at t=100 (within the interval) the phrase is kept; at t=700
(past the interval) the drawn phrase is stored. -/
theorem C8_witness :
    update_idle_message C8s 100 2 = C8s ∧
    (update_idle_message C8s 700 2).selected_idle_message =
      some "Bambu Lab Printer Standing By" := by
  have h := C8_idle_rotation C8s 100 2
  have h2 := C8_idle_rotation C8s 700 2
  refine ⟨h.1 "System Ready" rfl
    (by norm_num [C8s, init_state, idle_message_interval]), ?_⟩
  rw [(h2.2 (by norm_num [C8s, init_state, idle_message_interval])).1]
  rfl

/-- C9: the progress bar is a fixed-width bar whose filled-cell count is the
floor of `width * percent / 100`: percent 0 gives an all-empty 10-cell bar,
100 an all-filled one, 45 exactly 4 filled and 6 empty cells, and in general
(for 0 ≤ percent ≤ 100) the bar has `floor (width * percent / 100)` filled
cells and total width `width`. -/
theorem C9_progress_bar :
    create_progress_bar 0 = "▒▒▒▒▒▒▒▒▒▒" ∧
    create_progress_bar 100 = "██████████" ∧
    create_progress_bar 45 = "████▒▒▒▒▒▒" ∧
    ∀ (p : ℚ) (w : Int), 0 ≤ p → p ≤ 100 → 0 ≤ w →
      (create_progress_bar p w).data.count '█' =
          (⌊(w : ℚ) * (p / 100)⌋).toNat ∧
        (create_progress_bar p w).length = w.toNat := by
  refine ⟨?_, ?_, ?_, ?_⟩
  · simp only [create_progress_bar]
    norm_num [pyInt]
    rfl
  · simp only [create_progress_bar]
    norm_num [pyInt]
    rfl
  · simp only [create_progress_bar]
    norm_num [pyInt]
    rfl
  · intro p w hp hpw hw
    have hwq : (0 : ℚ) ≤ (w : ℚ) := by exact_mod_cast hw
    have hnn : 0 ≤ (w : ℚ) * (p / 100) :=
      mul_nonneg hwq (div_nonneg hp (by norm_num))
    have hfl0 : 0 ≤ ⌊(w : ℚ) * (p / 100)⌋ := Int.floor_nonneg.mpr hnn
    have hle : (w : ℚ) * (p / 100) ≤ (w : ℚ) := by
      have h1 : p / 100 ≤ 1 := by linarith
      calc (w : ℚ) * (p / 100) ≤ (w : ℚ) * 1 :=
            mul_le_mul_of_nonneg_left h1 hwq
        _ = (w : ℚ) := mul_one _
    have hfle : ⌊(w : ℚ) * (p / 100)⌋ ≤ w := by
      calc ⌊(w : ℚ) * (p / 100)⌋ ≤ ⌊(w : ℚ)⌋ := Int.floor_le_floor hle
        _ = w := Int.floor_intCast w
    have hpy : pyInt ((w : ℚ) * (p / 100)) = ⌊(w : ℚ) * (p / 100)⌋ := by
      unfold pyInt; rw [if_neg (not_lt.mpr hnn)]
    constructor
    · simp [create_progress_bar, hpy, String.data_append, List.count_append,
        List.count_replicate_self, List.count_replicate]
    · simp [create_progress_bar, hpy, String.length, String.data_append,
        List.length_append, List.length_replicate]
      omega

/-- C9 witness: at percent 45 on the 10-cell bar there are exactly 4 filled
cells. -/
theorem C9_witness : (create_progress_bar 45 10).data.count '█' = 4 := by
  have h := C9_progress_bar.2.2.2 45 10 (by norm_num) (by norm_num)
    (by norm_num)
  rw [h.1]
  norm_num
  rfl

/-- C10 counterexample: `format_temperature` is NOT total on every input —
on a value that parses as the float `inf` (reachable: `float('inf')`
succeeds, and `json.loads` accepts the `Infinity` token), `round` raises
`OverflowError`, which `except (ValueError, TypeError)` does not catch, so
the function raises instead of returning a string; and `nan` parses as a
number yet yields the placeholder rather than an integer-rounded string. -/
theorem C10_counterexample :
    format_temperature (some (Except.ok PyFloat.inf)) = Except.error () ∧
    format_temperature (some (Except.ok PyFloat.nan)) = Except.ok "???" := by
  exact ⟨rfl, rfl⟩

/-- C10 (amended): `format_temperature` returns a string on every `None`,
conversion-failure, `nan` or finite input — the placeholder for
`None`/unparseable/`nan`, and for a finite value the string of its
half-to-even integer rounding, which is within one half of the value — but
on a value converting to `inf` or `-inf` it raises an uncaught
`OverflowError` instead of returning. -/
theorem C10_format_temperature :
    format_temperature none = Except.ok "???" ∧
    (∀ e : Unit, format_temperature (some (Except.error e)) =
      Except.ok "???") ∧
    format_temperature (some (Except.ok PyFloat.nan)) = Except.ok "???" ∧
    format_temperature (some (Except.ok PyFloat.inf)) = Except.error () ∧
    format_temperature (some (Except.ok PyFloat.ninf)) = Except.error () ∧
    ∀ q : ℚ, format_temperature (some (Except.ok (PyFloat.finite q))) =
        Except.ok (toString (pyRound q)) ∧
      |q - (pyRound q : ℚ)| ≤ 1/2 := by
  refine ⟨rfl, fun e => rfl, rfl, rfl, rfl, fun q => ⟨rfl, ?_⟩⟩
  simp only [pyRound]
  have h0 : (⌊q⌋ : ℚ) ≤ q := Int.floor_le q
  have h1 : q < ⌊q⌋ + 1 := Int.lt_floor_add_one q
  by_cases hc : q - (⌊q⌋ : ℚ) < 1/2
  · rw [if_pos hc, abs_le]; constructor <;> linarith
  · rw [if_neg hc]
    by_cases hc2 : (1:ℚ)/2 < q - (⌊q⌋ : ℚ)
    · rw [if_pos hc2, abs_le]; push_cast; constructor <;> linarith
    · rw [if_neg hc2]
      by_cases hpar : ⌊q⌋ % 2 = 0
      · rw [if_pos hpar, abs_le]; constructor <;> linarith
      · rw [if_neg hpar, abs_le]; push_cast; constructor <;> linarith


/-- A payload whose `mc_percent` fails `float()` conversion while
`layer_num` is present and well-formed. -/
def C2pd : PrintData :=
  { emptyPD with mc_percent := Field.malformed, layer_num := Field.val 7 }

/-- C2 counterexample: in `C2pd` the field `layer_num` is present with the
well-formed value 7, yet after the merge the stored `current_layer` is still
0 — the malformed `mc_percent` earlier in the processing order raised and
aborted the rest of the merge. -/
theorem C2_counterexample :
    C2pd.layer_num = Field.val 7 ∧
    (handleP (init_state 0) 0 C2pd).current_layer = 0 ∧ (0 : Int) ≠ 7 := by
  decide

/-- C2 (amended): provided every numeric entry present in the update
parses, the merge is field-local — each merge-target field absent from the
update keeps its stored value exactly, and each field present (for
`gcode_file`, present and non-empty) is overwritten with exactly the carried
value. -/
theorem C2_merge_field_local (s : PrinterState) (now : ℚ) (pd : PrintData)
    (hwf : wellFormed pd) :
    ((pd.gcode_state = none →
        (handleP s now pd).gcode_state = s.gcode_state) ∧
      ∀ g, pd.gcode_state = some g → (handleP s now pd).gcode_state = g) ∧
    ((pd.bed_temper = Field.absent →
        (handleP s now pd).bed_temper = s.bed_temper) ∧
      ∀ q, pd.bed_temper = Field.val q →
        (handleP s now pd).bed_temper = some q) ∧
    ((pd.bed_target_temper = Field.absent →
        (handleP s now pd).bed_target_temper = s.bed_target_temper) ∧
      ∀ q, pd.bed_target_temper = Field.val q →
        (handleP s now pd).bed_target_temper = some q) ∧
    ((pd.nozzle_temper = Field.absent →
        (handleP s now pd).nozzle_temper = s.nozzle_temper) ∧
      ∀ q, pd.nozzle_temper = Field.val q →
        (handleP s now pd).nozzle_temper = some q) ∧
    ((pd.nozzle_target_temper = Field.absent →
        (handleP s now pd).nozzle_target_temper = s.nozzle_target_temper) ∧
      ∀ q, pd.nozzle_target_temper = Field.val q →
        (handleP s now pd).nozzle_target_temper = some q) ∧
    ((pd.mc_percent = Field.absent →
        (handleP s now pd).current_progress = s.current_progress) ∧
      ∀ q, pd.mc_percent = Field.val q →
        (handleP s now pd).current_progress = q) ∧
    ((pd.mc_remaining_time = Field.absent →
        (handleP s now pd).remaining_time = s.remaining_time) ∧
      ∀ n, pd.mc_remaining_time = Field.val n →
        (handleP s now pd).remaining_time = n) ∧
    ((pd.layer_num = Field.absent →
        (handleP s now pd).current_layer = s.current_layer) ∧
      ∀ n, pd.layer_num = Field.val n →
        (handleP s now pd).current_layer = n) ∧
    ((pd.total_layer_num = Field.absent →
        (handleP s now pd).total_layer_num = s.total_layer_num) ∧
      ∀ n, pd.total_layer_num = Field.val n →
        (handleP s now pd).total_layer_num = n) ∧
    ((pd.print_error = Field.absent →
        (handleP s now pd).print_error = s.print_error) ∧
      ∀ n, pd.print_error = Field.val n →
        (handleP s now pd).print_error = n) ∧
    ((pd.gcode_file = none →
        (handleP s now pd).last_known_file = s.last_known_file) ∧
      ∀ f, pd.gcode_file = some f → f ≠ "" →
        (handleP s now pd).last_known_file = some f) ∧
    ((pd.mc_print_stage = none →
        (handleP s now pd).print_stage = s.print_stage) ∧
      ∀ v, pd.mc_print_stage = some v →
        (handleP s now pd).print_stage = v) ∧
    ((pd.mc_print_sub_stage = none →
        (handleP s now pd).print_sub_stage = s.print_sub_stage) ∧
      ∀ v, pd.mc_print_sub_stage = some v →
        (handleP s now pd).print_sub_stage = v) := by
  refine ⟨⟨?_, ?_⟩, ⟨?_, ?_⟩, ⟨?_, ?_⟩, ⟨?_, ?_⟩, ⟨?_, ?_⟩, ⟨?_, ?_⟩,
    ⟨?_, ?_⟩, ⟨?_, ?_⟩, ⟨?_, ?_⟩, ⟨?_, ?_⟩, ⟨?_, ?_⟩, ⟨?_, ?_⟩, ⟨?_, ?_⟩⟩
  · intro h; rw [merge_gcode_state s now pd, h]
  · intro g h; rw [merge_gcode_state s now pd, h]
  · intro h; rw [merge_bed_temper s now pd hwf, h]
  · intro q h; rw [merge_bed_temper s now pd hwf, h]
  · intro h; rw [merge_bed_target_temper s now pd hwf, h]
  · intro q h; rw [merge_bed_target_temper s now pd hwf, h]
  · intro h; rw [merge_nozzle_temper s now pd hwf, h]
  · intro q h; rw [merge_nozzle_temper s now pd hwf, h]
  · intro h; rw [merge_nozzle_target_temper s now pd hwf, h]
  · intro q h; rw [merge_nozzle_target_temper s now pd hwf, h]
  · intro h; rw [merge_mc_percent s now pd hwf, h]
  · intro q h; rw [merge_mc_percent s now pd hwf, h]
  · intro h; rw [merge_mc_remaining_time s now pd hwf, h]
  · intro n h; rw [merge_mc_remaining_time s now pd hwf, h]
  · intro h; rw [merge_layer_num s now pd hwf, h]
  · intro n h; rw [merge_layer_num s now pd hwf, h]
  · intro h; rw [merge_total_layer_num s now pd hwf, h]
  · intro n h; rw [merge_total_layer_num s now pd hwf, h]
  · intro h; rw [merge_print_error s now pd hwf, h]
  · intro n h; rw [merge_print_error s now pd hwf, h]
  · intro h; rw [merge_gcode_file s now pd hwf, h]
  · intro f h hne; rw [merge_gcode_file s now pd hwf, h]; simp [hne]
  · intro h; rw [merge_print_stage s now pd hwf, h]
  · intro v h; rw [merge_print_stage s now pd hwf, h]
  · intro h; rw [merge_print_sub_stage s now pd hwf, h]
  · intro v h; rw [merge_print_sub_stage s now pd hwf, h]

/-- A well-formed mixed update: some fields present, others absent. -/
def C2wpd : PrintData :=
  { emptyPD with
    gcode_state := some "RUNNING"
    bed_temper := Field.val 60
    mc_percent := Field.val 45 }

/-- C2 witness: on a concrete mixed update the present fields are
overwritten and the absent `nozzle_temper` is unchanged. -/
theorem C2_witness :
    (handleP (init_state 0) 3 C2wpd).bed_temper = some 60 ∧
    (handleP (init_state 0) 3 C2wpd).nozzle_temper = none ∧
    (handleP (init_state 0) 3 C2wpd).gcode_state = "RUNNING" ∧
    (handleP (init_state 0) 3 C2wpd).current_progress = 45 := by
  have h := C2_merge_field_local (init_state 0) 3 C2wpd (by decide)
  refine ⟨h.2.1.2 60 (by decide), (h.2.2.2.1.1 (by decide)).trans rfl,
    h.1.2 "RUNNING" (by decide), h.2.2.2.2.2.1.2 45 (by decide)⟩



/-- A payload whose `bed_temper` fails `float()` conversion while
`nozzle_temper` is present with a well-formed value. -/
def C3pd : PrintData :=
  { emptyPD with
    gcode_state := some "RUNNING"
    bed_temper := Field.malformed
    nozzle_temper := Field.val 210 }

/-- C3 counterexample: the malformed `bed_temper` raises mid-merge and the
well-formed `nozzle_temper` carried in the same update is NOT applied (it
stays `none`), refuting "still applies every other field present in the same
update"; the `gcode_state` field processed before the failure was applied,
and the raise is swallowed at the message level. -/
theorem C3_counterexample :
    C3pd.nozzle_temper = Field.val 210 ∧
    (handleP (init_state 0) 0 C3pd).nozzle_temper = none ∧
    (handleP (init_state 0) 0 C3pd).gcode_state = "RUNNING" := by
  decide

/-- C3 (amended): a numeric field that fails to parse leaves its own stored
value unchanged and is swallowed at the message level, but it aborts the
remainder of the merge at that field: fields earlier in the fixed processing
order are applied, fields later in the order are left unchanged (shown here
with `nozzle_temper` as the failing field: the earlier `bed_temper` is
applied, the later progress/remaining-time/error/file fields are not). -/
theorem C3_merge_abort (s : PrinterState) (now : ℚ) (pd : PrintData)
    (hmal : pd.nozzle_temper = Field.malformed)
    (h1 : pd.bed_temper ≠ Field.malformed)
    (h2 : pd.bed_target_temper ≠ Field.malformed) :
    (handleP s now pd).nozzle_temper = s.nozzle_temper ∧
    (handleP s now pd).bed_temper =
      (match pd.bed_temper with
       | Field.val q => some q
       | _ => s.bed_temper) ∧
    (handleP s now pd).current_progress = s.current_progress ∧
    (handleP s now pd).remaining_time = s.remaining_time ∧
    (handleP s now pd).print_error = s.print_error ∧
    (handleP s now pd).last_known_file = s.last_known_file := by
  have hsplit : mergeSteps now pd =
      [step_gcode_state pd, step_bed_temper now pd,
       step_bed_target_temper pd] ++ step_nozzle_temper now pd ::
        [step_nozzle_target_temper pd, step_mc_percent pd,
         step_mc_remaining_time pd, step_layer_num pd,
         step_total_layer_num pd, step_print_error pd, step_gcode_file pd,
         step_is_printing, step_print_stage pd, step_print_sub_stage pd,
         step_update_status pd] := rfl
  have hpre : ∀ st ∈ [step_gcode_state pd, step_bed_temper now pd,
      step_bed_target_temper pd], ∀ s', ∃ s'', st s' = Except.ok s'' := by
    intro st hst
    simp only [List.mem_cons, List.not_mem_nil, or_false] at hst
    rcases hst with rfl | rfl | rfl
    · intro s'
      rcases hg : pd.gcode_state with _ | g <;>
        · simp only [step_gcode_state, hg]
          exact ⟨_, rfl⟩
    · exact stepField_ok _ _ h1
    · exact stepField_ok _ _ h2
  obtain ⟨s1, hs1⟩ := runSteps_ok_of _ hpre s
  have herr : step_nozzle_temper now pd s1 = Except.error s1 := by
    simp only [step_nozzle_temper, stepField, hmal]
  have hfinal : handleP s now pd = s1 := by
    show settle (runSteps s (mergeSteps now pd)) = s1
    rw [hsplit, runSteps_append_ok s s1 _ _ hs1,
      settle_cons_error _ _ _ _ herr]
  have hs1s : s1 = settle (runSteps s
      [step_gcode_state pd, step_bed_temper now pd,
       step_bed_target_temper pd]) := by rw [hs1]; rfl
  rw [hfinal, hs1s]
  refine ⟨?_, ?_, ?_, ?_, ?_, ?_⟩
  · refine preserve_runSteps _ _ ?_ s
    intro st hst
    simp only [List.mem_cons, List.not_mem_nil, or_false] at hst
    rcases hst with rfl | rfl | rfl <;>
      (intro s2
       simp only [step_gcode_state, step_bed_temper, step_bed_target_temper,
         stepField]) <;>
      (repeat' split) <;> rfl
  · rcases hb : pd.bed_temper with _ | _ | q
    · refine preserve_runSteps _ _ ?_ s
      intro st hst
      simp only [List.mem_cons, List.not_mem_nil, or_false] at hst
      rcases hst with rfl | rfl | rfl <;>
        (intro s2
         simp only [step_gcode_state, step_bed_temper,
           step_bed_target_temper, stepField, hb]) <;>
        (repeat' split) <;> rfl
    · exact absurd hb h1
    · have hsplit2 : [step_gcode_state pd, step_bed_temper now pd,
          step_bed_target_temper pd] =
          [step_gcode_state pd] ++ step_bed_temper now pd ::
            [step_bed_target_temper pd] := rfl
      obtain ⟨sg, hsg⟩ := runSteps_ok_of [step_gcode_state pd]
        (by
          intro st hst
          simp only [List.mem_cons, List.not_mem_nil, or_false] at hst
          rcases hst with rfl
          intro s'
          rcases hg : pd.gcode_state with _ | g <;>
            · simp only [step_gcode_state, hg]
              exact ⟨_, rfl⟩) s
      rw [hsplit2, runSteps_append_ok s sg _ _ hsg]
      have hstep : step_bed_temper now pd sg = Except.ok
          { sg with bed_temper := some q, last_temp_update := now } := by
        simp only [step_bed_temper, stepField, hb]
      rw [settle_cons_ok _ _ _ _ hstep]
      refine Eq.trans (preserve_runSteps (fun st => st.bed_temper) _ ?_ _) rfl
      intro st hst
      simp only [List.mem_cons, List.not_mem_nil, or_false] at hst
      rcases hst with rfl
      intro s2
      simp only [step_bed_target_temper, stepField]
      (repeat' split) <;> rfl
  · refine preserve_runSteps _ _ ?_ s
    intro st hst
    simp only [List.mem_cons, List.not_mem_nil, or_false] at hst
    rcases hst with rfl | rfl | rfl <;>
      (intro s2
       simp only [step_gcode_state, step_bed_temper, step_bed_target_temper,
         stepField]) <;>
      (repeat' split) <;> rfl
  · refine preserve_runSteps _ _ ?_ s
    intro st hst
    simp only [List.mem_cons, List.not_mem_nil, or_false] at hst
    rcases hst with rfl | rfl | rfl <;>
      (intro s2
       simp only [step_gcode_state, step_bed_temper, step_bed_target_temper,
         stepField]) <;>
      (repeat' split) <;> rfl
  · refine preserve_runSteps _ _ ?_ s
    intro st hst
    simp only [List.mem_cons, List.not_mem_nil, or_false] at hst
    rcases hst with rfl | rfl | rfl <;>
      (intro s2
       simp only [step_gcode_state, step_bed_temper, step_bed_target_temper,
         stepField]) <;>
      (repeat' split) <;> rfl
  · refine preserve_runSteps _ _ ?_ s
    intro st hst
    simp only [List.mem_cons, List.not_mem_nil, or_false] at hst
    rcases hst with rfl | rfl | rfl <;>
      (intro s2
       simp only [step_gcode_state, step_bed_temper, step_bed_target_temper,
         stepField]) <;>
      (repeat' split) <;> rfl


/-- A payload with a well-formed `bed_temper`, a malformed `nozzle_temper`
and a later well-formed `mc_percent`. -/
def C3wpd : PrintData :=
  { emptyPD with
    bed_temper := Field.val 55
    nozzle_temper := Field.malformed
    mc_percent := Field.val 45 }

/-- C3 witness: on `C3wpd` the earlier `bed_temper` is applied while the
failing `nozzle_temper` and the later `mc_percent` leave the store
unchanged. -/
theorem C3_witness :
    (handleP (init_state 0) 7 C3wpd).nozzle_temper = none ∧
    (handleP (init_state 0) 7 C3wpd).bed_temper = some 55 ∧
    (handleP (init_state 0) 7 C3wpd).current_progress = 0 := by
  have h := C3_merge_abort (init_state 0) 7 C3wpd (by decide) (by decide)
    (by decide)
  exact ⟨h.1.trans rfl, h.2.1.trans (by decide), h.2.2.1.trans rfl⟩


/-- A payload carrying only an `ams_status` key (which is read by the
resolver directly from the message and is not a stored field). -/
def C4pdA : PrintData := { emptyPD with ams_status := Field.val 1 }

/-- C4 counterexample: merging `C4pdA` and merging the empty payload from
the same initial state leave identical stored fields (everything except
`current_status` is equal), yet the two resolved canonical statuses differ
(`CHANGE_FILAMENT` vs `IDLE`) — the resolver reads the incoming message's
`ams_status` key, so the status is NOT a function of the stored field set
alone. -/
theorem C4_counterexample :
    eraseStatus (handleP (init_state 0) 0 C4pdA) =
      eraseStatus (handleP (init_state 0) 0 emptyPD) ∧
    (handleP (init_state 0) 0 C4pdA).current_status = "CHANGE_FILAMENT" ∧
    (handleP (init_state 0) 0 emptyPD).current_status = "IDLE" := by
  decide

/-- C4 (amended): after every well-formed merge the canonical status is
recomputed deterministically from the full stored field set TOGETHER WITH
the incoming message's `upload`, `ams_status` and `online` entries (and is
itself never a merge target): two merges leaving equal stored fields and
carrying equal values for those three message entries resolve to the same
canonical status. -/
theorem C4_status_function (s1 s2 : PrinterState) (now1 now2 : ℚ)
    (pd1 pd2 : PrintData) (hwf1 : wellFormed pd1) (hwf2 : wellFormed pd2)
    (hstore : eraseStatus (handleP s1 now1 pd1) =
      eraseStatus (handleP s2 now2 pd2))
    (hu : pd1.upload = pd2.upload) (ha : pd1.ams_status = pd2.ams_status)
    (ho : pd1.online = pd2.online) :
    (handleP s1 now1 pd1).current_status =
      (handleP s2 now2 pd2).current_status := by
  rw [status_resolved s1 now1 pd1 hwf1, status_resolved s2 now2 pd2 hwf2]
  refine resolve_congr _ _ _ _ ?_ ?_ ?_ ?_ hu ha ho
    hwf1.2.2.2.2.2.2.2.2.2
  · have h := congrArg PrinterState.print_error hstore
    simpa [eraseStatus] using h
  · have h := congrArg PrinterState.gcode_state hstore
    simpa [eraseStatus] using h
  · have h := congrArg PrinterState.print_stage hstore
    simpa [eraseStatus] using h
  · have h := congrArg PrinterState.print_sub_stage hstore
    simpa [eraseStatus] using h

/-- C4 witness: two merges of the same AMS payload from states differing
only in their previous canonical status resolve to the same status. -/
theorem C4_witness :
    (handleP (init_state 0) 0 C4pdA).current_status =
      (handleP { init_state 0 with current_status := "UNKNOWN" } 0
        C4pdA).current_status := by
  exact C4_status_function (init_state 0)
    { init_state 0 with current_status := "UNKNOWN" } 0 0 C4pdA C4pdA
    (by decide) (by decide) (by decide) rfl rfl rfl



/-- C5 (amended): the store keeps ONE shared temperature timestamp,
refreshed by an update to either actual temperature; when a render fires
more than 5 seconds after that shared timestamp, BOTH temperatures display
the unknown placeholder regardless of the numeric values still stored. -/
theorem C5_shared_staleness (s : PrinterState) (now : ℚ) (draw : Fin 4)
    (hthr : ¬ now - s.last_update_time < update_interval)
    (hstale : temp_timeout < now - s.last_temp_update) :
    ∃ p, (update_presence s now draw true).2 = some p ∧
      p.state = (if s.is_printing ∧ 0 < s.remaining_time
        then "🔧 ???°C 🔥 ???°C" ++ s!" ⏱️ {s.remaining_time}min"
        else "🔧 ???°C 🔥 ???°C") := by
  simp only [update_presence]
  rw [if_neg hthr]
  by_cases hp : s.is_printing = true
  · simp only [hp, if_true]
    refine ⟨_, rfl, ?_⟩
    simp only [hp, hstale, if_true, true_and, eq_self_iff_true]
    split <;> rfl
  · simp only [hp, if_false]
    refine ⟨_, rfl, ?_⟩
    simp only [idle_is_printing, idle_remaining_time, idle_last_temp_update,
      hp, hstale, if_true, if_false, false_and, Bool.false_eq_true]
    rfl

/-- A payload carrying only a bed temperature. -/
def C5pd1 : PrintData := { emptyPD with bed_temper := Field.val 60 }

/-- A payload carrying only a nozzle temperature. -/
def C5pd2 : PrintData := { emptyPD with nozzle_temper := Field.val 210 }

/-- Bed temperature 60 merged at time 0, then nozzle temperature 210 merged
at time 100: the single shared timestamp is refreshed to 100. -/
def C5s : PrinterState := handleP (handleP (init_state 0) 0 C5pd1) 100 C5pd2

/-- The stored state produced by the two merges of `C5s`, written out. -/
def C5lit : PrinterState :=
  { init_state 0 with
    bed_temper := some 60
    nozzle_temper := some 210
    last_temp_update := 100 }

/-- C5 counterexample: the bed temperature was last updated at time 0, yet a
render at time 101 (101 seconds later, far beyond the 5-second threshold)
still displays `60` rather than the unknown placeholder, because the fresh
nozzle update at time 100 refreshed the single shared timestamp — there is
no per-temperature timestamp. -/
theorem C5_counterexample :
    (C5s.bed_temper = some 60 ∧ C5s.last_temp_update = 100) ∧
    ∃ p, (update_presence C5s 101 0 true).2 = some p ∧
      p.state = "🔧 60°C 🔥 210°C" := by
  refine ⟨by decide, ?_⟩
  rw [show C5s = C5lit from by decide]
  simp only [update_presence]
  rw [if_neg (by norm_num [C5lit, init_state, update_interval])]
  simp only [C5lit, init_state]
  simp only [Bool.false_eq_true, if_false]
  refine ⟨_, rfl, ?_⟩
  simp only [idle_is_printing, idle_remaining_time, idle_last_temp_update,
    idle_bed_temper, idle_bed_target_temper, idle_nozzle_temper,
    idle_nozzle_target_temper]
  norm_num [temp_timeout, pyRound, format_stored_temp, format_temperature]
  rfl

/-- A state with a stored bed temperature last stamped at time 0. -/
def C5ws : PrinterState := { init_state 0 with bed_temper := some 60 }

/-- C5 witness: a render at t=20 with the shared timestamp at 0 shows the
placeholder for both temperatures despite the stored value 60. -/
theorem C5_witness :
    ∃ p, (update_presence C5ws 20 0 true).2 = some p ∧
      p.state = "🔧 ???°C 🔥 ???°C" := by
  obtain ⟨p, h1, h2⟩ := C5_shared_staleness C5ws 20 0
    (by norm_num [C5ws, init_state, update_interval])
    (by norm_num [C5ws, init_state, temp_timeout])
  refine ⟨p, h1, ?_⟩
  rw [h2]
  norm_num [C5ws, init_state]

end BambuRPC
